import Mathlib

set_option allowUnsafeReducibility true

attribute [semireducible] Rat.add Rat.mul Rat.sub Rat.inv

/-!
Verification development for the "Medieval Adventure" arcade defense game.

The repository contains several near-identical copies of one pygame game.
We shallowly embed the simulation core of the first copy (the variant with
swordsman/archer/brute enemies, a ballista, and the respawn-tax rule) and,
for the statements that also cite them, the relevant functions of the later
copy that adds a triple-shot buff (`try_shoot`, `maybe_advance_wave`,
`try_spawn_enemies`).

Modelling conventions:
* Machine floats are modelled by exact rationals `ℚ`; Python ints by `ℤ`/`ℕ`.
* `pygame.math.Vector2.normalize` divides by the square root of the squared
  length; the square-root routine of the float library is threaded through
  the embedding as an explicit function parameter `sq : ℚ → ℚ`, and
  `Vector2.rotate` (used by the triple shot) as a parameter `rot`.
  Theorems about the game hold for every such parameter; the theorem about
  `vec_norm_from` itself assumes the defining equations of a square root at
  the point of use.
* `random.random()` is modelled by a deterministic stream of rationals
  carried in the state (`Rng`); `random.uniform a b` is `a + (b-a)·r`, and
  `random.choices` over the three power-up kinds with weights
  `[0.35, 0.35, 0.30]` picks by cumulative thresholds of one draw.
* Purely cosmetic entities (particles, floating texts, screen shake) affect
  no gameplay outcome and are omitted, as are the rendering and event
  plumbing; their extra `random` draws are likewise outside the model.
* `pygame.Rect` stores integers; Python `int()` truncates toward zero
  (`pyInt`).  `colliderect` is the strict-overlap test of pygame, and
  `inflate` grows a rectangle about its centre with C integer division.
-/

namespace MA

/-- Python `int()` on a rational: truncation toward zero. -/
def pyInt (q : ℚ) : ℤ := if 0 ≤ q then q.floor else q.ceil

/-- `pygame.Rect`: integer position and size. -/
structure Rect where
  x : ℤ
  y : ℤ
  w : ℤ
  h : ℤ
deriving DecidableEq, Repr

def Rect.right (r : Rect) : ℤ := r.x + r.w

def Rect.bottom (r : Rect) : ℤ := r.y + r.h

/-- `pygame.Rect.centerx` (integer division). -/
def Rect.centerx (r : Rect) : ℤ := r.x + r.w / 2

/-- `pygame.Rect.colliderect`: strict overlap (touching edges do not collide). -/
def Rect.collides (a b : Rect) : Bool :=
  decide (a.x < b.right) && decide (b.x < a.right) &&
  decide (a.y < b.bottom) && decide (b.y < a.bottom)

/-- `pygame.Rect.inflate`: grow about the centre (C integer division). -/
def Rect.inflate (r : Rect) (dx dy : ℤ) : Rect :=
  ⟨r.x - dx / 2, r.y - dy / 2, r.w + dx, r.h + dy⟩

/-- `pygame.Rect.collidepoint` on a float point (coordinates truncated). -/
def Rect.containsPoint (r : Rect) (px py : ℚ) : Bool :=
  decide (r.x ≤ pyInt px) && decide (pyInt px < r.right) &&
  decide (r.y ≤ pyInt py) && decide (pyInt py < r.bottom)

/-- `clamp` of the source: `max(lo, min(hi, v))`. -/
def clamp (v lo hi : ℚ) : ℚ := max lo (min hi v)

/-- `vec_norm_from(a, b)`: unit vector from `a` to `b`, `(1, 0)` for equal
points.  `sq` stands for the float square root used by
`Vector2.normalize`. -/
def vec_norm_from (sq : ℚ → ℚ) (a b : ℚ × ℚ) : ℚ × ℚ :=
  let vx := b.1 - a.1
  let vy := b.2 - a.2
  if vx * vx + vy * vy = 0 then (1, 0)
  else (vx / sq (vx * vx + vy * vy), vy / sq (vx * vx + vy * vy))

/-- `vec_from_angle` of the later copy: textually the same function. -/
def vec_from_angle (sq : ℚ → ℚ) (a b : ℚ × ℚ) : ℚ × ℚ :=
  let vx := b.1 - a.1
  let vy := b.2 - a.2
  if vx * vx + vy * vy = 0 then (1, 0)
  else (vx / sq (vx * vx + vy * vy), vy / sq (vx * vx + vy * vy))

/-- Python `bool` used as a number (`True = 1`). -/
def b2q (b : Bool) : ℚ := if b then 1 else 0

/-- Deterministic model of the seeded `random` stream: `vals` is the
sequence of `random.random()` results, `idx` the position. -/
structure Rng where
  vals : ℕ → ℚ
  idx : ℕ

/-- One `random.random()` draw. -/
def Rng.next (r : Rng) : ℚ × Rng := (r.vals r.idx, ⟨r.vals, r.idx + 1⟩)

/-- Owner-tagged projectile (colour/visual tag omitted as cosmetic). -/
structure Projectile where
  x : ℚ
  y : ℚ
  vx : ℚ
  vy : ℚ
  damage : ℤ
  radius : ℤ := 2
  gravity : ℚ := 0
  alive : Bool := true
deriving DecidableEq, Repr

/-- Movement keys and sprint key, after the `or` merging of the source
(`K_d or K_RIGHT`, ...). -/
structure Keys where
  left : Bool := false
  right : Bool := false
  up : Bool := false
  down : Bool := false
  shift : Bool := false
deriving DecidableEq, Repr

/-- The game phase machine `"title" | "playing" | "paused" | "game_over"`. -/
inductive GState | title | playing | paused | game_over
deriving DecidableEq, Repr

/-! ## First game copy ("Medieval Adventure — Enhanced", lines 1–900) -/

namespace V1

def SCREEN_WIDTH : ℚ := 1920

/-- `int(SCREEN_HEIGHT * GROUND_RATIO) = int(1080 * 0.65)`. -/
def GROUND_Y : ℚ := 702

def PLAYER_SPEED : ℚ := 320
def PLAYER_SPRINT_SPEED : ℚ := 500
def PLAYER_STAMINA_MAX : ℚ := 100
def PLAYER_STAMINA_DRAIN : ℚ := 35
def PLAYER_STAMINA_REGEN : ℚ := 22
def PLAYER_MAX_HP : ℤ := 100

def ARROW_SPEED : ℚ := 1000
def ARROW_DAMAGE : ℤ := 22
def ARROW_GRAVITY : ℚ := 900

def BOLT_SPEED : ℚ := 1300
def BOLT_DAMAGE : ℤ := 50
def BOLT_COOLDOWN : ℚ := 11/10

def ENEMY_HP : ℤ := 90
def ENEMY_SWORD_SPEED : ℚ := 140
def ENEMY_ARCHER_SPEED : ℚ := 110
def ENEMY_ARCHER_RANGE : ℚ := 420
def ENEMY_ARCHER_CADENCE : ℚ := 17/10
def ENEMY_ARROW_SPEED : ℚ := 820
def ENEMY_ARROW_GRAVITY : ℚ := 700
def ENEMY_DPS_VS_CASTLE : ℚ := 15

def BRUTE_HP : ℤ := 200
def BRUTE_SPEED : ℚ := 90
def BRUTE_DPS_VS_CASTLE : ℚ := 28

def CASTLE_HP_MAX : ℚ := 600

def WAVE_BASE_SPAWN_RATE : ℚ := 1
def WAVE_ACCELERATION : ℚ := 92/100
def WAVE_KILL_TARGET_STEP : ℕ := 12

def DROP_CHANCE : ℚ := 22/100

/-- `Projectile.update`: gravity integration then ground cull. -/
def Projectile.update (p : Projectile) (dt : ℚ) : Projectile :=
  let vy := p.vy + p.gravity * dt
  let x := p.x + p.vx * dt
  let y := p.y + vy * dt
  { p with vx := p.vx, vy := vy, x := x, y := y,
           alive := if y ≥ GROUND_Y - 2 then false else p.alive }

/-- `Projectile.rect`. -/
def Projectile.rect (p : Projectile) : Rect :=
  ⟨pyInt (p.x - (p.radius : ℚ)), pyInt (p.y - (p.radius : ℚ)), p.radius * 2, p.radius * 2⟩

/-- Enemy of the first copy (swordsman / archer / brute by flags).
`shoot_timer` has no default: its `random.uniform(0.1, CADENCE)`
`default_factory` draw is performed by the spawn functions. -/
structure Enemy where
  x : ℚ
  y : ℚ
  hp : ℤ
  speed : ℚ
  melee_dps : ℚ
  is_archer : Bool := false
  is_brute : Bool := false
  preferred_range : ℚ := ENEMY_ARCHER_RANGE
  shoot_cooldown : ℚ := ENEMY_ARCHER_CADENCE
  shoot_timer : ℚ
deriving DecidableEq, Repr

def Enemy.rect (e : Enemy) : Rect := ⟨pyInt (e.x - 10), pyInt e.y, 20, 52⟩

/-- `Enemy.update`: returns the updated enemy, the enemy arrows appended to
`enemy_arrows` this frame, and the melee DPS contributed to the castle. -/
def Enemy.update (sq : ℚ → ℚ) (e : Enemy) (dt : ℚ) (castle_rect : Rect)
    (player_x : ℚ) : Enemy × List Projectile × ℚ :=
  if e.is_archer then
    let desired_x : ℚ := (castle_rect.centerx : ℚ) + e.preferred_range
    let x := if e.x > desired_x then e.x - e.speed * dt else e.x
    let t := e.shoot_timer - dt
    if t ≤ 0 then
      let origin : ℚ × ℚ := (x - 22, e.y + 15)
      let dirv := vec_norm_from sq origin (player_x, GROUND_Y - 54)
      ({ e with x := x, shoot_timer := e.shoot_cooldown },
       [{ x := origin.1, y := origin.2,
          vx := dirv.1 * ENEMY_ARROW_SPEED,
          vy := dirv.2 * ENEMY_ARROW_SPEED * (78/100),
          damage := 16, gravity := ENEMY_ARROW_GRAVITY }], 0)
    else ({ e with x := x, shoot_timer := t }, [], 0)
  else
    let wall_x : ℚ := (castle_rect.x : ℚ) + 24
    if e.x > wall_x then ({ e with x := e.x - e.speed * dt }, [], 0)
    else (e, [], e.melee_dps)

/-- Player of the first copy. -/
structure Player where
  x : ℚ
  y : ℚ
  hp : ℤ := PLAYER_MAX_HP
  stamina : ℚ := PLAYER_STAMINA_MAX
  fire_cd : ℚ := 22/100
  fire_timer : ℚ := 0
  aim_dir : ℚ × ℚ := (1, 0)
deriving DecidableEq, Repr

def Player.rect (pl : Player) : Rect := ⟨pyInt (pl.x - 10), pyInt pl.y, 20, 52⟩

/-- `Player.update`: move (normalized intent), clamp to bounds, drain or
regenerate stamina, tick the fire cooldown, recompute live aim toward the
mouse. -/
def Player.update (sq : ℚ → ℚ) (pl : Player) (dt : ℚ) (keys : Keys)
    (mouse : ℚ × ℚ) : Player :=
  let mvx : ℚ := b2q keys.right - b2q keys.left
  let mvy : ℚ := b2q keys.down - b2q keys.up
  let sprint := keys.shift
  let speed : ℚ := if sprint ∧ pl.stamina > 0 then PLAYER_SPRINT_SPEED else PLAYER_SPEED
  let len2 := mvx * mvx + mvy * mvy
  let x1 := if len2 > 0 then pl.x + mvx / sq len2 * speed * dt else pl.x
  let y1 := if len2 > 0 then pl.y + mvy / sq len2 * speed * dt else pl.y
  let x2 := clamp x1 20 (SCREEN_WIDTH - 20)
  let y2 := clamp y1 (GROUND_Y - 60) (GROUND_Y - 50)
  let st := if sprint ∧ len2 > 0 ∧ pl.stamina > 0
            then clamp (pl.stamina - PLAYER_STAMINA_DRAIN * dt) 0 PLAYER_STAMINA_MAX
            else clamp (pl.stamina + PLAYER_STAMINA_REGEN * dt) 0 PLAYER_STAMINA_MAX
  let ft := max 0 (pl.fire_timer - dt)
  let aim := vec_norm_from sq (x2 + 10, y2 + 15) mouse
  { pl with x := x2, y := y2, stamina := st, fire_timer := ft, aim_dir := aim }

/-- `Player.try_fire`: emit one arrow and reset the cooldown only when the
fire timer reads exactly `0.0`. -/
def Player.try_fire (pl : Player) (projectiles : List Projectile) :
    Player × List Projectile :=
  if pl.fire_timer = 0 then
    ({ pl with fire_timer := pl.fire_cd },
     projectiles ++ [{ x := pl.x + 10, y := pl.y + 15,
                       vx := pl.aim_dir.1 * ARROW_SPEED,
                       vy := pl.aim_dir.2 * ARROW_SPEED,
                       damage := ARROW_DAMAGE, gravity := ARROW_GRAVITY }])
  else (pl, projectiles)

/-- Ballista turret of the first copy. -/
structure Ballista where
  x : ℚ
  y : ℚ
  cooldown : ℚ := BOLT_COOLDOWN
  timer : ℚ := 0
deriving DecidableEq, Repr

def Ballista.update (b : Ballista) (dt : ℚ) : Ballista :=
  { b with timer := max 0 (b.timer - dt) }

def Ballista.fire (sq : ℚ → ℚ) (b : Ballista) (mouse : ℚ × ℚ)
    (projectiles : List Projectile) : Ballista × List Projectile :=
  if b.timer > 0 then (b, projectiles)
  else
    let dirv := vec_norm_from sq (b.x, b.y) mouse
    ({ b with timer := b.cooldown },
     projectiles ++ [{ x := b.x, y := b.y,
                       vx := dirv.1 * BOLT_SPEED, vy := dirv.2 * BOLT_SPEED,
                       damage := BOLT_DAMAGE, gravity := ARROW_GRAVITY * (6/10),
                       radius := 3 }])

/-- Power-up kinds of the first copy. -/
inductive PKind | heart | stamina | coin
deriving DecidableEq, Repr

/-- Power-up drop. -/
structure PowerUp where
  kind : PKind
  x : ℚ
  y : ℚ
  vy : ℚ := 0
  alive : Bool := true
deriving DecidableEq, Repr

/-- `PowerUp.update`: fall under gravity and rest on the ground. -/
def PowerUp.update (pu : PowerUp) (dt : ℚ) : PowerUp :=
  let vy := pu.vy + 1200 * dt
  let y := pu.y + vy * dt
  if y ≥ GROUND_Y - 6 then { pu with y := GROUND_Y - 6, vy := 0 }
  else { pu with y := y, vy := vy }

/-- Full game state of the first copy (cosmetic collections omitted). -/
structure Game where
  castle_rect : Rect := ⟨440, 562, 200, 140⟩
  castle_hp : ℚ := CASTLE_HP_MAX
  player : Player
  ballista : Ballista
  projectiles : List Projectile := []
  enemy_projectiles : List Projectile := []
  enemies : List Enemy := []
  powerups : List PowerUp := []
  wave : ℕ := 1
  kills_this_wave : ℕ := 0
  spawn_rate : ℚ := WAVE_BASE_SPAWN_RATE
  spawn_timer : ℚ := 0
  score : ℤ := 0
  state : GState := GState.playing
  game_over : Bool := false
  rng : Rng

/-- The swordsman built by `spawn_swordsman`; the argument is the
`random.uniform(0.1, ENEMY_ARCHER_CADENCE)` draw of the `shoot_timer`
default factory. -/
def mkSwordsman (u : ℚ) : Enemy :=
  { x := SCREEN_WIDTH + 30, y := GROUND_Y - 56,
    hp := ENEMY_HP, speed := ENEMY_SWORD_SPEED, melee_dps := ENEMY_DPS_VS_CASTLE,
    shoot_timer := 1/10 + u * (ENEMY_ARCHER_CADENCE - 1/10) }

/-- The archer built by `spawn_archer`. -/
def mkArcher (u : ℚ) : Enemy :=
  { x := SCREEN_WIDTH + 30, y := GROUND_Y - 56,
    hp := ENEMY_HP, speed := ENEMY_ARCHER_SPEED, melee_dps := 0, is_archer := true,
    shoot_timer := 1/10 + u * (ENEMY_ARCHER_CADENCE - 1/10) }

/-- The brute built by `spawn_brute`. -/
def mkBrute (u : ℚ) : Enemy :=
  { x := SCREEN_WIDTH + 30, y := GROUND_Y - 56,
    hp := BRUTE_HP, speed := BRUTE_SPEED, melee_dps := BRUTE_DPS_VS_CASTLE, is_brute := true,
    shoot_timer := 1/10 + u * (ENEMY_ARCHER_CADENCE - 1/10) }

def Game.spawn_swordsman (g : Game) : Game :=
  let d := g.rng.next
  { g with rng := d.2, enemies := g.enemies ++ [mkSwordsman d.1] }

def Game.spawn_archer (g : Game) : Game :=
  let d := g.rng.next
  { g with rng := d.2, enemies := g.enemies ++ [mkArcher d.1] }

def Game.spawn_brute (g : Game) : Game :=
  let d := g.rng.next
  { g with rng := d.2, enemies := g.enemies ++ [mkBrute d.1] }

/-- The wave-scaled archer spawn probability,
`clamp(0.30 + (wave - 1) * 0.05, 0.30, 0.85)`. -/
def archer_p (wave : ℕ) : ℚ := clamp (3/10 + ((wave : ℚ) - 1) * (5/100)) (3/10) (85/100)

/-- The wave-scaled brute spawn probability,
`clamp(0.10 + (wave - 1) * 0.03, 0.10, 0.40)`. -/
def brute_p (wave : ℕ) : ℚ := clamp (1/10 + ((wave : ℚ) - 1) * (3/100)) (1/10) (4/10)

/-- `Game.try_spawn_enemies`: tick the spawn timer; on expiry reset it to
`max(0.25, spawn_rate)` and run one spawn round (always a swordsman, an
archer with a wave-scaled clamped probability, a brute with a lower
wave-scaled clamped probability). -/
def Game.try_spawn_enemies (g : Game) (dt : ℚ) : Game :=
  let t := g.spawn_timer - dt
  if t ≤ 0 then
    let p_archer := archer_p g.wave
    let p_brute := brute_p g.wave
    let g1 := { g with spawn_timer := max (1/4) g.spawn_rate }
    let g2 := g1.spawn_swordsman
    let d1 := g2.rng.next
    let g3 := if d1.1 < p_archer then Game.spawn_archer { g2 with rng := d1.2 }
              else { g2 with rng := d1.2 }
    let d2 := g3.rng.next
    if d2.1 < p_brute then Game.spawn_brute { g3 with rng := d2.2 }
    else { g3 with rng := d2.2 }
  else { g with spawn_timer := t }

/-- `Game.advance_wave_if_ready`: advance the wave when the kill counter has
reached the target, resetting it, compounding the spawn-rate decay and
healing the castle (capped at the maximum). -/
def Game.advance_wave_if_ready (g : Game) : Game :=
  if g.kills_this_wave ≥ g.wave * WAVE_KILL_TARGET_STEP then
    { g with wave := g.wave + 1, kills_this_wave := 0,
             spawn_rate := g.spawn_rate * WAVE_ACCELERATION,
             castle_hp := min CASTLE_HP_MAX (g.castle_hp + 60) }
  else g

/-- The pieces of game state touched by the player-projectile collision
pass, besides the projectile and enemy lists. -/
structure P1 where
  score : ℤ
  kills : ℕ
  powerups : List PowerUp
  rng : Rng

/-- `random.choices(["heart","stamina","coin"], weights=[0.35,0.35,0.30])`
picked by the cumulative thresholds of one draw. -/
def drawKind (r : ℚ) : PKind :=
  if r < 35/100 then PKind.heart else if r < 70/100 then PKind.stamina else PKind.coin

/-- `Game.maybe_drop_powerup`: a `DROP_CHANCE` roll, then a weighted kind. -/
def maybe_drop_powerup (x y : ℚ) (s : P1) : P1 :=
  let d := s.rng.next
  if d.1 < DROP_CHANCE then
    let d2 := d.2.next
    { s with rng := d2.2, powerups := s.powerups ++ [{ kind := drawKind d2.1, x := x, y := y }] }
  else { s with rng := d.2 }

/-- Inner loop of the player-projectile pass: damage the first enemy in
iteration order whose rectangle overlaps `pr`, leaving the rest untouched;
also report the damaged enemy. -/
def hitFirstEnemy (pr : Rect) (dmg : ℤ) : List Enemy → List Enemy × Option Enemy
  | [] => ([], none)
  | e :: es =>
    if pr.collides e.rect then
      ({ e with hp := e.hp - dmg } :: es, some { e with hp := e.hp - dmg })
    else
      let r := hitFirstEnemy pr dmg es
      (e :: r.1, r.2)

/-- One player projectile against the enemy list: on the first overlap apply
damage, award the flat hit score, deactivate the projectile, and on a kill
bump the kill counter, add the kill bonus and roll a power-up drop
(`break` after the first hit). -/
def projHitStep (proj : Projectile) (enemies : List Enemy) (s : P1) :
    Projectile × List Enemy × P1 :=
  if proj.alive then
    match hitFirstEnemy (Projectile.rect proj) proj.damage enemies with
    | (es, some e) =>
      let s1 := { s with score := s.score + 5 }
      if e.hp ≤ 0 then
        ({ proj with alive := false }, es,
         maybe_drop_powerup e.x e.y
           { s1 with kills := s1.kills + 1,
                     score := s1.score + 20 + (if e.is_brute then 10 else 0) })
      else ({ proj with alive := false }, es, s1)
    | (es, none) => (proj, es, s)
  else (proj, enemies, s)

/-- The player-projectile collision pass over the whole projectile list. -/
def phase1 : List Projectile → List Enemy → P1 → List Projectile × List Enemy × P1
  | [], es, s => ([], es, s)
  | p :: ps, es, s =>
    let r := projHitStep p es s
    let rest := phase1 ps r.2.1 r.2.2
    (r.1 :: rest.1, rest.2.1, rest.2.2)

/-- One enemy projectile against the player's inset hurtbox, then (only if
the player was not hit) the slightly inflated castle region.  A player hit
that drops health to `≤ 0` applies the respawn tax: full heal and a flat
castle-health penalty of 60. -/
def enemyProjStep (prect crect : Rect) (proj : Projectile) (hp : ℤ) (castle : ℚ) :
    Projectile × ℤ × ℚ :=
  if proj.alive then
    let pr := Projectile.rect proj
    if pr.collides (prect.inflate (-6) (-10)) then
      let hp1 := hp - proj.damage
      if hp1 ≤ 0 then ({ proj with alive := false }, PLAYER_MAX_HP, castle - 60)
      else ({ proj with alive := false }, hp1, castle)
    else if pr.collides (crect.inflate 8 8) then
      ({ proj with alive := false }, hp, castle - (proj.damage : ℚ) * (1/2))
    else (proj, hp, castle)
  else (proj, hp, castle)

/-- The enemy-projectile collision pass. -/
def phase2 (prect crect : Rect) : List Projectile → ℤ → ℚ → List Projectile × ℤ × ℚ
  | [], hp, castle => ([], hp, castle)
  | p :: ps, hp, castle =>
    let r := enemyProjStep prect crect p hp castle
    let rest := phase2 prect crect ps r.2.1 r.2.2
    (r.1 :: rest.1, rest.2.1, rest.2.2)

/-- One power-up against the player's pickup box. -/
def powerupStep (pu : PowerUp) (pl : Player) (score : ℤ) : PowerUp × Player × ℤ :=
  if pu.alive && ((Player.rect pl).inflate 20 12).containsPoint pu.x pu.y then
    match pu.kind with
    | PKind.heart => ({ pu with alive := false },
                      { pl with hp := min PLAYER_MAX_HP (pl.hp + 25) }, score)
    | PKind.stamina => ({ pu with alive := false },
                        { pl with stamina := min PLAYER_STAMINA_MAX (pl.stamina + 35) }, score)
    | PKind.coin => ({ pu with alive := false }, pl, score + 30)
  else (pu, pl, score)

/-- The power-up pickup pass. -/
def phase3 : List PowerUp → Player → ℤ → List PowerUp × Player × ℤ
  | [], pl, score => ([], pl, score)
  | pu :: pus, pl, score =>
    let r := powerupStep pu pl score
    let rest := phase3 pus r.2.1 r.2.2
    (r.1 :: rest.1, rest.2.1, rest.2.2)

/-- `Game.handle_collisions`: the three passes in source order.  The
power-up pass sees the drops appended by the first pass, and the player's
health as left by the enemy-projectile pass. -/
def Game.handle_collisions (g : Game) : Game :=
  let r1 := phase1 g.projectiles g.enemies ⟨g.score, g.kills_this_wave, g.powerups, g.rng⟩
  let r2 := phase2 (Player.rect g.player) g.castle_rect g.enemy_projectiles g.player.hp g.castle_hp
  let r3 := phase3 r1.2.2.powerups { g.player with hp := r2.2.1 } r1.2.2.score
  { g with projectiles := r1.1, enemies := r1.2.1,
           kills_this_wave := r1.2.2.kills, rng := r1.2.2.rng,
           enemy_projectiles := r2.1, castle_hp := r2.2.2,
           powerups := r3.1, player := r3.2.1, score := r3.2.2 }

/-- The purge pass of `Game.update`. -/
def Game.cleanup (g : Game) : Game :=
  { g with
    projectiles := g.projectiles.filter
      (fun p => p.alive && decide (-60 ≤ p.x) && decide (p.x ≤ SCREEN_WIDTH + 60)),
    enemy_projectiles := g.enemy_projectiles.filter
      (fun p => p.alive && decide (-60 ≤ p.x) && decide (p.x ≤ SCREEN_WIDTH + 60)),
    enemies := g.enemies.filter (fun e => decide (e.hp > 0) && decide (e.x > -60)),
    powerups := g.powerups.filter (fun pu => pu.alive) }

/-- The per-enemy update loop of `Game.update`: updated enemies, the enemy
arrows appended this frame, and the accumulated melee DPS. -/
def enemiesPhase (sq : ℚ → ℚ) (dt : ℚ) (castle_rect : Rect) (player_x : ℚ) :
    List Enemy → List Enemy × List Projectile × ℚ
  | [] => ([], [], 0)
  | e :: es =>
    let r := Enemy.update sq e dt castle_rect player_x
    let rest := enemiesPhase sq dt castle_rect player_x es
    (r.1 :: rest.1, r.2.1 ++ rest.2.1, r.2.2 + rest.2.2)

/-- The actor updates at the head of `Game.update` (player then
ballista). -/
def Game.stepActors (sq : ℚ → ℚ) (dt : ℚ) (keys : Keys) (mouse : ℚ × ℚ) (g : Game) : Game :=
  { g with player := Player.update sq g.player dt keys mouse,
           ballista := g.ballista.update dt }

/-- The projectile-integration loops of `Game.update`. -/
def Game.integrateProjectiles (dt : ℚ) (g : Game) : Game :=
  { g with projectiles := g.projectiles.map (Projectile.update · dt),
           enemy_projectiles := g.enemy_projectiles.map (Projectile.update · dt) }

/-- The enemy loop of `Game.update` with the accumulated melee damage
applied to the castle. -/
def Game.enemiesUpdate (sq : ℚ → ℚ) (dt : ℚ) (g : Game) : Game :=
  let er := enemiesPhase sq dt g.castle_rect g.player.x g.enemies
  { g with enemies := er.1,
           enemy_projectiles := g.enemy_projectiles ++ er.2.1,
           castle_hp := if er.2.2 > 0 then g.castle_hp - er.2.2 * dt else g.castle_hp }

/-- The power-up motion loop of `Game.update`. -/
def Game.powerupsUpdate (dt : ℚ) (g : Game) : Game :=
  { g with powerups := g.powerups.map (PowerUp.update · dt) }

/-- The loss-condition check at the tail of `Game.update`. -/
def Game.loseCheck (g : Game) : Game :=
  if g.castle_hp ≤ 0 ∧ g.state = GState.playing then
    { g with state := GState.game_over, game_over := true }
  else g

/-- `Game.update`: one simulation tick of the first copy, in source order
(player, ballista, spawner, projectile integration, enemies and melee
castle damage, power-up motion, collisions, purge, wave advance, loss
check). -/
def Game.update (sq : ℚ → ℚ) (g : Game) (dt : ℚ) (keys : Keys) (mouse : ℚ × ℚ) : Game :=
  if g.state = GState.playing then
    Game.loseCheck
      (Game.advance_wave_if_ready
        (Game.cleanup
          (Game.handle_collisions
            (Game.powerupsUpdate dt
              (Game.enemiesUpdate sq dt
                (Game.integrateProjectiles dt
                  (Game.try_spawn_enemies
                    (Game.stepActors sq dt keys mouse g) dt)))))))
  else g

/-- The trajectory data named by the determinism property. -/
def observe (g : Game) : ℤ × ℤ × ℚ × ℕ := (g.score, g.player.hp, g.castle_hp, g.wave)

/-- Run the tick over a fixed sequence of `dt` values and input intents,
collecting the observed trajectory. -/
def runTrace (sq : ℚ → ℚ) : Game → List (ℚ × Keys × (ℚ × ℚ)) → List (ℤ × ℤ × ℚ × ℕ)
  | _, [] => []
  | g, i :: rest =>
    let g1 := Game.update sq g i.1 i.2.1 i.2.2
    observe g1 :: runTrace sq g1 rest

end V1

/-! ## Later game copy ("Medieval Adventure — Archer & Castle", lines 2346–3103):
the functions cited alongside the first copy (triple-shot `try_shoot`,
`maybe_advance_wave`, `try_spawn_enemies`, and the enemy-projectile
collision branch). -/

namespace V5

def SCREEN_WIDTH : ℚ := 1280

/-- `int(720 * 0.68)`. -/
def GROUND_Y : ℚ := 489

def PLAYER_SPEED : ℚ := 280
def PLAYER_SPRINT_SPEED : ℚ := 420
def PLAYER_STAMINA_MAX : ℚ := 100
def PLAYER_STAMINA_DRAIN : ℚ := 35
def PLAYER_STAMINA_REGEN : ℚ := 20
def PLAYER_MAX_HP : ℤ := 100

def ARROW_SPEED : ℚ := 900
def ARROW_DAMAGE : ℤ := 22
def ARROW_GRAVITY : ℚ := 800

def ENEMY_HP : ℤ := 90
def ENEMY_SWORD_SPEED : ℚ := 120
def ENEMY_ARCHER_SPEED : ℚ := 100
def ENEMY_ARCHER_CADENCE : ℚ := 16/10

def CASTLE_HP_MAX : ℚ := 500

def WAVE_ACCELERATION : ℚ := 92/100
def WAVE_KILL_TARGET_STEP : ℕ := 10

/-- Player of the later copy: adds the triple-shot buff timer. -/
structure Player where
  x : ℚ
  y : ℚ
  hp : ℤ := PLAYER_MAX_HP
  speed : ℚ := PLAYER_SPEED
  stamina_max : ℚ := PLAYER_STAMINA_MAX
  stamina : ℚ := PLAYER_STAMINA_MAX
  aim_dir : ℚ × ℚ := (1, 0)
  shoot_cooldown : ℚ := 22/100
  shoot_timer : ℚ := 0
  triple_shot_timer : ℚ := 0
  pickup_magnet_radius : ℚ := 110
deriving DecidableEq, Repr

def Player.rect (pl : Player) : Rect := ⟨pyInt (pl.x - 10), pyInt pl.y, 20, 50⟩

/-- `Player.update` of the later copy: as in the first copy, and also ticks
the triple-shot buff timer down to a floor of `0`. -/
def Player.update (sq : ℚ → ℚ) (pl : Player) (dt : ℚ) (keys : Keys)
    (mouse : ℚ × ℚ) : Player :=
  let mvx : ℚ := b2q keys.right - b2q keys.left
  let mvy : ℚ := b2q keys.down - b2q keys.up
  let sprint := keys.shift
  let want_speed : ℚ := if sprint ∧ pl.stamina > 0 then PLAYER_SPRINT_SPEED else PLAYER_SPEED
  let len2 := mvx * mvx + mvy * mvy
  let x1 := if len2 > 0 then pl.x + mvx / sq len2 * want_speed * dt else pl.x
  let y1 := if len2 > 0 then pl.y + mvy / sq len2 * want_speed * dt else pl.y
  let x2 := clamp x1 20 (SCREEN_WIDTH - 20)
  let y2 := clamp y1 (GROUND_Y - 60) (GROUND_Y - 50)
  let st := if sprint ∧ len2 > 0 ∧ pl.stamina > 0
            then clamp (pl.stamina - PLAYER_STAMINA_DRAIN * dt) 0 pl.stamina_max
            else clamp (pl.stamina + PLAYER_STAMINA_REGEN * dt) 0 pl.stamina_max
  let st2 := max 0 (pl.shoot_timer - dt)
  let tt := max 0 (pl.triple_shot_timer - dt)
  let aim := vec_from_angle sq (x2 + 10, y2 + 15) mouse
  { pl with x := x2, y := y2, stamina := st, shoot_timer := st2,
            triple_shot_timer := tt, aim_dir := aim }

/-- The arrow emitted by `try_shoot` at hand position `hand` with direction
`d` (triple-shot arrows differ only in colour, which is cosmetic). -/
def mkArrow (hand : ℚ × ℚ) (d : ℚ × ℚ) : Projectile :=
  { x := hand.1, y := hand.2, vx := d.1 * ARROW_SPEED, vy := d.2 * ARROW_SPEED,
    damage := ARROW_DAMAGE, gravity := ARROW_GRAVITY, radius := 2 }

/-- `Player.try_shoot`: a no-op while the cooldown is running; otherwise
three arrows rotated by `-9°, 0°, 9°` during an active triple-shot buff,
else a single arrow, and in both cases a cooldown reset.  `rot` stands for
`pygame.math.Vector2.rotate` (degrees). -/
def Player.try_shoot (rot : ℚ → ℚ × ℚ → ℚ × ℚ) (pl : Player)
    (projectiles : List Projectile) : Player × List Projectile :=
  if pl.shoot_timer > 0 then (pl, projectiles)
  else
    let hand : ℚ × ℚ := (pl.x + 10, pl.y + 15)
    let projs :=
      if pl.triple_shot_timer > 0 then
        projectiles ++ [mkArrow hand (rot (-9) pl.aim_dir),
                        mkArrow hand (rot 0 pl.aim_dir),
                        mkArrow hand (rot 9 pl.aim_dir)]
      else
        projectiles ++ [mkArrow hand pl.aim_dir]
    ({ pl with shoot_timer := pl.shoot_cooldown }, projs)

/-- Enemy of the later copy (swordsman or archer, no brute). -/
structure Enemy where
  x : ℚ
  y : ℚ
  w : ℤ := 20
  h : ℤ := 50
  hp : ℤ := ENEMY_HP
  speed : ℚ := ENEMY_SWORD_SPEED
  is_archer : Bool := false
  shoot_cooldown : ℚ := ENEMY_ARCHER_CADENCE
  shoot_timer : ℚ
deriving DecidableEq, Repr

/-- The swordsman built by the later copy's `spawn_swordsman`; the argument
is the `random.uniform(0.2, ENEMY_ARCHER_CADENCE)` default-factory draw. -/
def mkSwordsman (u : ℚ) : Enemy :=
  { x := SCREEN_WIDTH + 30, y := GROUND_Y - 55,
    shoot_timer := 2/10 + u * (ENEMY_ARCHER_CADENCE - 2/10) }

/-- The archer built by the later copy's `spawn_archer`. -/
def mkArcher (u : ℚ) : Enemy :=
  { x := SCREEN_WIDTH + 30, y := GROUND_Y - 55, is_archer := true,
    shoot_timer := 2/10 + u * (ENEMY_ARCHER_CADENCE - 2/10) }

/-- The spawner state of the later copy. -/
structure SpawnState where
  spawn_timer : ℚ
  spawn_rate : ℚ
  wave : ℕ
  enemies : List Enemy
  rng : Rng

def SpawnState.spawn_swordsman (s : SpawnState) : SpawnState :=
  let d := s.rng.next
  { s with rng := d.2, enemies := s.enemies ++ [mkSwordsman d.1] }

def SpawnState.spawn_archer (s : SpawnState) : SpawnState :=
  let d := s.rng.next
  { s with rng := d.2, enemies := s.enemies ++ [mkArcher d.1] }

/-- The later copy's wave-scaled archer spawn probability,
`clamp(0.35 + (wave - 1) * 0.05, 0.35, 0.85)`. -/
def archer_p (wave : ℕ) : ℚ := clamp (35/100 + ((wave : ℚ) - 1) * (5/100)) (35/100) (85/100)

/-- `try_spawn_enemies` of the later copy: on timer expiry reset it to
`max(0.2, spawn_rate)`; a swordsman spawns only with probability `0.55`, an
archer with a wave-scaled clamped probability, and there is no brute. -/
def try_spawn_enemies (s : SpawnState) (dt : ℚ) : SpawnState :=
  let t := s.spawn_timer - dt
  if t ≤ 0 then
    let s1 := { s with spawn_timer := max (2/10) s.spawn_rate }
    let d1 := s1.rng.next
    let s2 := if d1.1 < 55/100 then SpawnState.spawn_swordsman { s1 with rng := d1.2 }
              else { s1 with rng := d1.2 }
    let d2 := s2.rng.next
    if d2.1 < archer_p s.wave then
      SpawnState.spawn_archer { s2 with rng := d2.2 }
    else { s2 with rng := d2.2 }
  else { s with spawn_timer := t }

/-- The wave fields read and written by `maybe_advance_wave`. -/
structure WaveState where
  wave : ℕ
  kills_this_wave : ℕ
  spawn_rate : ℚ
  castle_hp : ℚ
deriving DecidableEq, Repr

/-- `maybe_advance_wave` of the later copy (kill step 10, heal 40, castle
maximum 500). -/
def maybe_advance_wave (s : WaveState) : WaveState :=
  if s.kills_this_wave ≥ s.wave * WAVE_KILL_TARGET_STEP then
    { s with wave := s.wave + 1, kills_this_wave := 0,
             spawn_rate := s.spawn_rate * WAVE_ACCELERATION,
             castle_hp := min CASTLE_HP_MAX (s.castle_hp + 40) }
  else s

/-- One enemy projectile in the later copy's `handle_collisions`: the
player's inset hurtbox is `inflate(-6, -12)` and the respawn tax is 50. -/
def enemyProjStep (prect crect : Rect) (proj : Projectile) (hp : ℤ) (castle : ℚ) :
    Projectile × ℤ × ℚ :=
  if proj.alive then
    let pr := V1.Projectile.rect proj
    if pr.collides (prect.inflate (-6) (-12)) then
      let hp1 := hp - proj.damage
      if hp1 ≤ 0 then ({ proj with alive := false }, PLAYER_MAX_HP, castle - 50)
      else ({ proj with alive := false }, hp1, castle)
    else if pr.collides (crect.inflate 8 8) then
      ({ proj with alive := false }, hp, castle - (proj.damage : ℚ) * (1/2))
    else (proj, hp, castle)
  else (proj, hp, castle)

end V5

/-! ## Invariant of the bounds property -/

namespace V1

/-- All projectiles of a list carry non-negative damage (true of every
projectile the game creates). -/
def ProjDmgOK (l : List Projectile) : Prop := ∀ p ∈ l, 0 ≤ p.damage

/-- All enemies of a list have non-negative melee DPS (true of every enemy
the spawner creates). -/
def MeleeOK (l : List Enemy) : Prop := ∀ e ∈ l, 0 ≤ e.melee_dps

/-- The per-tick state invariant of the bounds property, with the castle
lower bound removed (the code never floors castle health at `0`) and the
structural side conditions satisfied by every reachable state. -/
def Inv (g : Game) : Prop :=
  0 ≤ g.player.hp ∧ g.player.hp ≤ PLAYER_MAX_HP ∧
  0 ≤ g.player.stamina ∧ g.player.stamina ≤ PLAYER_STAMINA_MAX ∧
  g.castle_hp ≤ CASTLE_HP_MAX ∧
  ProjDmgOK g.enemy_projectiles ∧ MeleeOK g.enemies

instance (g : Game) : Decidable (Inv g) := by
  unfold Inv ProjDmgOK MeleeOK
  exact inferInstance

end V1

/-! ## Concrete states used by counterexamples and witnesses -/

/-- The identity function standing in for the square root in concrete
evaluations whose outcome does not depend on its values. -/
def idSq : ℚ → ℚ := fun q => q

/-- No key held. -/
def noKeys : Keys := {}

/-- The random stream that always answers `1` (so no probabilistic spawn
or drop fires). -/
def rngOne : Rng := ⟨fun _ => 1, 0⟩

/-- The random stream that always answers `0.9`. -/
def rngNine : Rng := ⟨fun _ => 9/10, 0⟩

namespace V1

/-- Counterexample state for the respawn-tax claim: castle at 30, player at
10 health, one live enemy arrow of damage 16 overlapping the player's inset
hurtbox, spawn timer still running. -/
def gC1 : Game :=
  { player := { x := 120, y := 646, hp := 10 },
    ballista := { x := 540, y := 590 },
    enemy_projectiles := [{ x := 120, y := 660, vx := 0, vy := 0, damage := 16 }],
    castle_hp := 30, spawn_timer := 1, rng := rngOne }

/-- Counterexample state for the wave-advance claim: kill counter at 11 of
the wave-1 target 12, and two live arrows each overlapping its own
10-health swordsman, so one tick records two kills. -/
def gC2 : Game :=
  { player := { x := 120, y := 646 },
    ballista := { x := 540, y := 590 },
    projectiles := [{ x := 800, y := 650, vx := 0, vy := 0, damage := 22 },
                    { x := 900, y := 650, vx := 0, vy := 0, damage := 22 }],
    enemies := [{ x := 800, y := 646, hp := 10, speed := 140, melee_dps := 15, shoot_timer := 1 },
                { x := 900, y := 646, hp := 10, speed := 140, melee_dps := 15, shoot_timer := 1 }],
    kills_this_wave := 11, castle_hp := 600, spawn_timer := 1, rng := rngOne }

/-- Witness state for the wave-advance claim: kill counter exactly at the
wave-1 target. -/
def gC2W : Game :=
  { player := { x := 120, y := 646 },
    ballista := { x := 540, y := 590 },
    kills_this_wave := 12, spawn_timer := 1, rng := rngOne }

/-- Counterexample state for the bounds claim: castle at 5, one live enemy
arrow of damage 16 overlapping the (inflated) castle region and missing the
player. -/
def gC3 : Game :=
  { player := { x := 120, y := 646 },
    ballista := { x := 540, y := 590 },
    enemy_projectiles := [{ x := 500, y := 600, vx := 0, vy := 0, damage := 16 }],
    castle_hp := 5, spawn_timer := 1, rng := rngOne }

/-- Witness state for the determinism claim. -/
def gC9 : Game :=
  { player := { x := 120, y := 646 },
    ballista := { x := 540, y := 590 },
    castle_hp := 600, spawn_timer := 1, rng := rngOne }

/-- Witness state for the bounds claim. -/
def gC3W : Game :=
  { player := { x := 120, y := 646, hp := 40, stamina := 50 },
    ballista := { x := 540, y := 590 },
    enemy_projectiles := [{ x := 120, y := 660, vx := 0, vy := 0, damage := 16 }],
    castle_hp := 300, spawn_timer := 2, rng := rngOne }

end V1

namespace V5

/-- Counterexample state for the spawn-composition claim, with the stream
that answers `0.9`: the timer expires but `0.9 ≥ 0.55` spawns no swordsman
and `0.9 ≥ 0.35` no archer. -/
def sC6 : SpawnState :=
  { spawn_timer := 0, spawn_rate := 11/10, wave := 1, enemies := [], rng := rngNine }

end V5

/-- A rotation stand-in that ignores the angle, for witnesses whose outcome
does not depend on its values. -/
def rotId : ℚ → ℚ × ℚ → ℚ × ℚ := fun _ v => v

/-- First-copy player with a running fire cooldown. -/
def plBusy : V1.Player := { x := 120, y := 646, fire_timer := 1/5 }

/-- First-copy player with an expired fire cooldown. -/
def plReady : V1.Player := { x := 120, y := 646, fire_timer := 0 }

/-- Later-copy player with an expired cooldown and an active triple-shot
buff. -/
def pl5Triple : V5.Player := { x := 100, y := 434, shoot_timer := 0, triple_shot_timer := 2 }

/-- First-copy ballista with a running cooldown. -/
def balW : V1.Ballista := { x := 540, y := 590, timer := 1/2 }

/-- A later-copy wave state below the advance threshold. -/
def sC2W5 : V5.WaveState :=
  { wave := 1, kills_this_wave := 0, spawn_rate := 1, castle_hp := 500 }

/-- A swordsman away from the arrow below. -/
def eFar : V1.Enemy := { x := 800, y := 646, hp := 90, speed := 140, melee_dps := 15, shoot_timer := 1 }

/-- A swordsman overlapping the arrow below. -/
def eHit : V1.Enemy := { x := 900, y := 646, hp := 90, speed := 140, melee_dps := 15, shoot_timer := 1 }

/-- A live player arrow overlapping only `eHit`. -/
def pC4 : Projectile := { x := 900, y := 650, vx := 0, vy := 0, damage := 22 }

/-- An empty collision-pass accumulator. -/
def sP1 : V1.P1 := { score := 0, kills := 0, powerups := [], rng := rngOne }

/-- A damage-16 enemy arrow overlapping both the player hurtboxes and the
inflated castle region below. -/
def pC5 : Projectile := { x := 120, y := 660, vx := 0, vy := 0, damage := 16 }

/-- A player bounding rectangle around the arrow above. -/
def prC5 : Rect := ⟨110, 646, 20, 52⟩

/-- A castle bounding rectangle whose inflation also covers the arrow. -/
def crC5 : Rect := ⟨100, 600, 200, 140⟩

/-! ## Helper lemmas -/

theorem clamp_lower (v lo hi : ℚ) : lo ≤ clamp v lo hi := le_max_left _ _

theorem clamp_upper (v lo hi : ℚ) (h : lo ≤ hi) : clamp v lo hi ≤ hi :=
  max_le h (min_le_left _ _)

/-! ## C8: aim-direction totality -/

/-- C8: `vec_norm_from` (and the identical `vec_from_angle`) returns
`(1, 0)` exactly when origin equals target, and otherwise — for a square
root obeying its defining equations at the squared length — a unit-length
vector that is a positive multiple of the vector from origin to target, so
the degenerate case never divides by zero and is never propagated. -/
theorem claim_C8 (sq : ℚ → ℚ) (a b : ℚ × ℚ) :
    (a = b → vec_norm_from sq a b = (1, 0))
    ∧ vec_from_angle sq a b = vec_norm_from sq a b
    ∧ (a ≠ b →
        sq ((b.1 - a.1) * (b.1 - a.1) + (b.2 - a.2) * (b.2 - a.2))
            * sq ((b.1 - a.1) * (b.1 - a.1) + (b.2 - a.2) * (b.2 - a.2))
          = (b.1 - a.1) * (b.1 - a.1) + (b.2 - a.2) * (b.2 - a.2) →
        0 < sq ((b.1 - a.1) * (b.1 - a.1) + (b.2 - a.2) * (b.2 - a.2)) →
        (vec_norm_from sq a b).1 * (vec_norm_from sq a b).1
            + (vec_norm_from sq a b).2 * (vec_norm_from sq a b).2 = 1
        ∧ ∃ c : ℚ, 0 < c
            ∧ vec_norm_from sq a b = (c * (b.1 - a.1), c * (b.2 - a.2))) := by
  refine ⟨?_, rfl, ?_⟩
  · intro h
    subst h
    simp [vec_norm_from]
  · intro hne hsq hpos
    have hlen : (b.1 - a.1) * (b.1 - a.1) + (b.2 - a.2) * (b.2 - a.2) ≠ 0 := by
      intro h0
      rcases (add_eq_zero_iff_of_nonneg (mul_self_nonneg _) (mul_self_nonneg _)).mp h0
        with ⟨hx, hy⟩
      exact hne (Prod.ext_iff.mpr
        ⟨by nlinarith [mul_self_eq_zero.mp hx], by nlinarith [mul_self_eq_zero.mp hy]⟩)
    have hL : sq ((b.1 - a.1) * (b.1 - a.1) + (b.2 - a.2) * (b.2 - a.2)) ≠ 0 :=
      ne_of_gt hpos
    constructor
    · show (vec_norm_from sq a b).1 * (vec_norm_from sq a b).1
          + (vec_norm_from sq a b).2 * (vec_norm_from sq a b).2 = 1
      unfold vec_norm_from
      rw [if_neg hlen]
      field_simp
      linarith [hsq]
    · refine ⟨1 / sq ((b.1 - a.1) * (b.1 - a.1) + (b.2 - a.2) * (b.2 - a.2)),
        by positivity, ?_⟩
      unfold vec_norm_from
      rw [if_neg hlen]
      refine Prod.ext_iff.mpr ⟨?_, ?_⟩ <;> · rw [div_eq_mul_inv, one_div]; ring

/-- Witness for C8 at origin `(0,0)`, target `(3,4)` and the square root
answering `5`. -/
theorem claim_C8_witness :
    ((0, 0) : ℚ × ℚ) ≠ (3, 4)
    ∧ (vec_norm_from (fun _ => 5) ((0, 0) : ℚ × ℚ) (3, 4)).1
          * (vec_norm_from (fun _ => 5) ((0, 0) : ℚ × ℚ) (3, 4)).1
        + (vec_norm_from (fun _ => 5) ((0, 0) : ℚ × ℚ) (3, 4)).2
          * (vec_norm_from (fun _ => 5) ((0, 0) : ℚ × ℚ) (3, 4)).2 = 1 :=
  ⟨by decide,
   ((claim_C8 (fun _ => 5) ((0, 0) : ℚ × ℚ) (3, 4)).2.2
     (by decide) (by decide) (by decide)).1⟩

/-! ## C9: determinism of the tick function -/

/-- C9: two independent runs of the embedded tick function from the same
initial state with identically seeded random stream and identical `dt` and
input sequences produce identical score / player health / castle health /
wave trajectories. -/
theorem claim_C9 (sq : ℚ → ℚ) (g1 g2 : V1.Game)
    (ins1 ins2 : List (ℚ × Keys × (ℚ × ℚ)))
    (hg : g1 = g2) (hins : ins1 = ins2) :
    V1.runTrace sq g1 ins1 = V1.runTrace sq g2 ins2 := by
  subst hg
  subst hins
  rfl

/-- Witness for C9: a concrete two-tick run compared against itself. -/
theorem claim_C9_witness :
    V1.gC9 = V1.gC9
    ∧ V1.runTrace idSq V1.gC9 [(1/60, noKeys, (0, 0)), (1/60, noKeys, (0, 0))]
        = V1.runTrace idSq V1.gC9 [(1/60, noKeys, (0, 0)), (1/60, noKeys, (0, 0))] :=
  ⟨rfl, claim_C9 idSq V1.gC9 V1.gC9 _ _ rfl rfl⟩

/-! ## C10: timer non-negativity and the readiness test -/

/-- C10: for non-negative `dt` and non-negative timers, `Player.update` of
both copies and `Ballista.update` leave the fire timer, the triple-shot
buff timer and the ballista timer non-negative, and consequently the
`fire_timer == 0.0` readiness test of `try_fire` fires exactly on the
expired-cooldown (`≤ 0`) states. -/
theorem claim_C10 (sq : ℚ → ℚ) (dt : ℚ) (keys : Keys) (mouse : ℚ × ℚ)
    (pl : V1.Player) (pl5 : V5.Player) (b : V1.Ballista) (projectiles : List Projectile)
    (hdt : 0 ≤ dt) (h1 : 0 ≤ pl.fire_timer) (h2 : 0 ≤ pl5.shoot_timer)
    (h3 : 0 ≤ pl5.triple_shot_timer) (h4 : 0 ≤ b.timer) :
    0 ≤ (V1.Player.update sq pl dt keys mouse).fire_timer
    ∧ 0 ≤ (V5.Player.update sq pl5 dt keys mouse).shoot_timer
    ∧ 0 ≤ (V5.Player.update sq pl5 dt keys mouse).triple_shot_timer
    ∧ 0 ≤ (V1.Ballista.update b dt).timer
    ∧ ((V1.Player.try_fire pl projectiles).2.length = projectiles.length + 1
        ↔ pl.fire_timer ≤ 0) := by
  refine ⟨?_, ?_, ?_, ?_, ?_⟩
  · simp only [V1.Player.update]
    exact le_max_left _ _
  · simp only [V5.Player.update]
    exact le_max_left _ _
  · simp only [V5.Player.update]
    exact le_max_left _ _
  · simp only [V1.Ballista.update]
    exact le_max_left _ _
  · by_cases h : pl.fire_timer = 0
    · simp [V1.Player.try_fire, h]
    · rw [V1.Player.try_fire, if_neg h]
      constructor
      · intro hlen
        simp at hlen
      · intro hle
        exact absurd (le_antisymm hle h1) h

/-- Witness for C10 at `dt = 1/60` and concrete players/ballista. -/
theorem claim_C10_witness :
    (0 : ℚ) ≤ 1/60
    ∧ 0 ≤ (V1.Ballista.update balW (1/60)).timer
    ∧ ((V1.Player.try_fire plBusy []).2.length = List.length ([] : List Projectile) + 1
        ↔ plBusy.fire_timer ≤ 0) := by
  have h := claim_C10 idSq (1/60) noKeys (0, 0) plBusy pl5Triple balW []
    (by decide) (by decide) (by decide) (by decide) (by decide)
  exact ⟨by decide, h.2.2.2.1, h.2.2.2.2⟩

/-! ## C7: fire-cooldown no-op and emission -/

/-- C7: while the cooldown runs, `try_fire` / `try_shoot` append no
projectile and leave the player (cooldown included) unchanged; on an
expired cooldown they emit exactly one arrow — or exactly three arrows at
the fixed `-9°, 0°, 9°` spread while the triple-shot buff timer is
positive — and reset the cooldown to the cooldown constant. -/
theorem claim_C7 (pl : V1.Player) (pl5 : V5.Player) (rot : ℚ → ℚ × ℚ → ℚ × ℚ)
    (ps ps5 : List Projectile) :
    (0 < pl.fire_timer → V1.Player.try_fire pl ps = (pl, ps))
    ∧ (pl.fire_timer = 0 →
        V1.Player.try_fire pl ps =
          ({ pl with fire_timer := pl.fire_cd },
           ps ++ [{ x := pl.x + 10, y := pl.y + 15,
                    vx := pl.aim_dir.1 * V1.ARROW_SPEED,
                    vy := pl.aim_dir.2 * V1.ARROW_SPEED,
                    damage := V1.ARROW_DAMAGE, gravity := V1.ARROW_GRAVITY }]))
    ∧ (0 < pl5.shoot_timer → V5.Player.try_shoot rot pl5 ps5 = (pl5, ps5))
    ∧ (pl5.shoot_timer ≤ 0 →
        V5.Player.try_shoot rot pl5 ps5 =
          ({ pl5 with shoot_timer := pl5.shoot_cooldown },
           if 0 < pl5.triple_shot_timer then
             ps5 ++ [V5.mkArrow (pl5.x + 10, pl5.y + 15) (rot (-9) pl5.aim_dir),
                     V5.mkArrow (pl5.x + 10, pl5.y + 15) (rot 0 pl5.aim_dir),
                     V5.mkArrow (pl5.x + 10, pl5.y + 15) (rot 9 pl5.aim_dir)]
           else ps5 ++ [V5.mkArrow (pl5.x + 10, pl5.y + 15) pl5.aim_dir])) := by
  refine ⟨?_, ?_, ?_, ?_⟩
  · intro h
    rw [V1.Player.try_fire, if_neg (ne_of_gt h)]
  · intro h
    rw [V1.Player.try_fire, if_pos h]
  · intro h
    rw [V5.Player.try_shoot, if_pos h]
  · intro h
    rw [V5.Player.try_shoot, if_neg (not_lt.mpr h)]

/-- Witness for C7: the no-op case with a running cooldown and the
triple-shot case with an expired one. -/
theorem claim_C7_witness :
    (0 : ℚ) < plBusy.fire_timer
    ∧ V1.Player.try_fire plBusy [] = (plBusy, [])
    ∧ pl5Triple.shoot_timer ≤ 0
    ∧ V5.Player.try_shoot rotId pl5Triple [] =
        ({ pl5Triple with shoot_timer := pl5Triple.shoot_cooldown },
         if 0 < pl5Triple.triple_shot_timer then
           [V5.mkArrow (pl5Triple.x + 10, pl5Triple.y + 15) (rotId (-9) pl5Triple.aim_dir),
            V5.mkArrow (pl5Triple.x + 10, pl5Triple.y + 15) (rotId 0 pl5Triple.aim_dir),
            V5.mkArrow (pl5Triple.x + 10, pl5Triple.y + 15) (rotId 9 pl5Triple.aim_dir)]
         else [V5.mkArrow (pl5Triple.x + 10, pl5Triple.y + 15) pl5Triple.aim_dir]) := by
  have h := claim_C7 plBusy pl5Triple rotId [] []
  exact ⟨by decide, h.1 (by decide), by decide, h.2.2.2 (by decide)⟩

/-! ## C3 helpers: preservation of the bounds invariant by each stage -/

theorem meleeOK_snoc (l : List V1.Enemy) (e : V1.Enemy) (hl : V1.MeleeOK l)
    (he : 0 ≤ e.melee_dps) : V1.MeleeOK (l ++ [e]) := by
  intro x hx
  rcases List.mem_append.mp hx with h | h
  · exact hl x h
  · simp only [List.mem_singleton] at h
    subst h
    exact he

theorem projDmgOK_append (l1 l2 : List Projectile) (h1 : V1.ProjDmgOK l1)
    (h2 : V1.ProjDmgOK l2) : V1.ProjDmgOK (l1 ++ l2) := by
  intro p hp
  rcases List.mem_append.mp hp with h | h
  · exact h1 p h
  · exact h2 p h

theorem projDmgOK_filter (l : List Projectile) (pred : Projectile → Bool)
    (h : V1.ProjDmgOK l) : V1.ProjDmgOK (l.filter pred) :=
  fun p hp => h p (List.mem_of_mem_filter hp)

theorem meleeOK_filter (l : List V1.Enemy) (pred : V1.Enemy → Bool)
    (h : V1.MeleeOK l) : V1.MeleeOK (l.filter pred) :=
  fun e he => h e (List.mem_of_mem_filter he)

/-- `Player.update` clamps stamina into `[0, max]` and does not touch
health. -/
theorem player_update_spec (sq : ℚ → ℚ) (pl : V1.Player) (dt : ℚ) (keys : Keys)
    (mouse : ℚ × ℚ) :
    (V1.Player.update sq pl dt keys mouse).hp = pl.hp
    ∧ 0 ≤ (V1.Player.update sq pl dt keys mouse).stamina
    ∧ (V1.Player.update sq pl dt keys mouse).stamina ≤ V1.PLAYER_STAMINA_MAX := by
  rw [V1.Player.update]
  dsimp only
  refine ⟨rfl, ?_, ?_⟩ <;> split_ifs
  · exact clamp_lower _ _ _
  · exact clamp_lower _ _ _
  · exact clamp_upper _ _ _ (by norm_num [V1.PLAYER_STAMINA_MAX])
  · exact clamp_upper _ _ _ (by norm_num [V1.PLAYER_STAMINA_MAX])

/-- `try_spawn_enemies` touches only the spawn timer, the random stream and
the enemy list. -/
theorem try_spawn_fields (g : V1.Game) (dt : ℚ) :
    (V1.Game.try_spawn_enemies g dt).player = g.player
    ∧ (V1.Game.try_spawn_enemies g dt).castle_hp = g.castle_hp
    ∧ (V1.Game.try_spawn_enemies g dt).enemy_projectiles = g.enemy_projectiles
    ∧ (V1.Game.try_spawn_enemies g dt).projectiles = g.projectiles
    ∧ (V1.Game.try_spawn_enemies g dt).powerups = g.powerups := by
  rw [V1.Game.try_spawn_enemies]
  dsimp only
  split_ifs <;> exact ⟨rfl, rfl, rfl, rfl, rfl⟩

/-- `try_spawn_enemies` spawns only enemies with non-negative melee DPS. -/
theorem try_spawn_meleeOK (g : V1.Game) (dt : ℚ) (h : V1.MeleeOK g.enemies) :
    V1.MeleeOK ((V1.Game.try_spawn_enemies g dt).enemies) := by
  rw [V1.Game.try_spawn_enemies]
  dsimp only
  split_ifs <;>
    simp only [V1.Game.spawn_swordsman, V1.Game.spawn_archer, V1.Game.spawn_brute,
      Rng.next]
  · exact meleeOK_snoc _ _ (meleeOK_snoc _ _ (meleeOK_snoc _ _ h (by norm_num
      [V1.mkSwordsman, V1.ENEMY_DPS_VS_CASTLE])) (by norm_num [V1.mkArcher]))
      (by norm_num [V1.mkBrute, V1.BRUTE_DPS_VS_CASTLE])
  · exact meleeOK_snoc _ _ (meleeOK_snoc _ _ h (by norm_num
      [V1.mkSwordsman, V1.ENEMY_DPS_VS_CASTLE])) (by norm_num [V1.mkArcher])
  · exact meleeOK_snoc _ _ (meleeOK_snoc _ _ h (by norm_num
      [V1.mkSwordsman, V1.ENEMY_DPS_VS_CASTLE]))
      (by norm_num [V1.mkBrute, V1.BRUTE_DPS_VS_CASTLE])
  · exact meleeOK_snoc _ _ h (by norm_num [V1.mkSwordsman, V1.ENEMY_DPS_VS_CASTLE])
  · exact h

/-- Projectile integration keeps the damage field. -/
theorem projDmgOK_map (l : List Projectile) (dt : ℚ) (h : V1.ProjDmgOK l) :
    V1.ProjDmgOK (l.map (V1.Projectile.update · dt)) := by
  intro p hp
  rcases List.mem_map.mp hp with ⟨q, hq, rfl⟩
  exact h q hq

/-- `Enemy.update` keeps the melee DPS field, emits only damage-16 arrows,
and contributes either `0` or its own melee DPS to the castle. -/
theorem enemy_update_spec (sq : ℚ → ℚ) (e : V1.Enemy) (dt : ℚ) (cr : Rect) (px : ℚ) :
    (V1.Enemy.update sq e dt cr px).1.melee_dps = e.melee_dps
    ∧ V1.ProjDmgOK (V1.Enemy.update sq e dt cr px).2.1
    ∧ (0 ≤ e.melee_dps → 0 ≤ (V1.Enemy.update sq e dt cr px).2.2) := by
  rw [V1.Enemy.update]
  try dsimp only
  split_ifs <;> refine ⟨rfl, ?_, ?_⟩ <;>
    first
      | (intro p hp
         simp only [List.mem_singleton] at hp
         subst hp
         norm_num)
      | (intro p hp
         exact absurd hp (List.not_mem_nil p))
      | (intro hm
         first
           | exact le_refl 0
           | exact hm)

/-- The enemy loop preserves the melee invariant, emits only non-negative
damage, and accumulates a non-negative total DPS. -/
theorem enemiesPhase_spec (sq : ℚ → ℚ) (dt : ℚ) (cr : Rect) (px : ℚ)
    (l : List V1.Enemy) (h : V1.MeleeOK l) :
    V1.MeleeOK (V1.enemiesPhase sq dt cr px l).1
    ∧ V1.ProjDmgOK (V1.enemiesPhase sq dt cr px l).2.1
    ∧ 0 ≤ (V1.enemiesPhase sq dt cr px l).2.2 := by
  induction l with
  | nil =>
    refine ⟨?_, ?_, le_refl 0⟩ <;> intro x hx <;> exact absurd hx (List.not_mem_nil x)
  | cons e es ih =>
    have he : 0 ≤ e.melee_dps := h e (List.mem_cons_self e es)
    have hes : V1.MeleeOK es := fun x hx => h x (List.mem_cons_of_mem e hx)
    obtain ⟨ih1, ih2, ih3⟩ := ih hes
    obtain ⟨hs1, hs2, hs3⟩ := enemy_update_spec sq e dt cr px
    rw [V1.enemiesPhase]
    dsimp only
    refine ⟨?_, ?_, ?_⟩
    · intro x hx
      rcases List.mem_cons.mp hx with hx | hx
      · subst hx
        rw [hs1]
        exact he
      · exact ih1 x hx
    · exact projDmgOK_append _ _ hs2 ih2
    · exact add_nonneg (hs3 he) ih3

/-- `hitFirstEnemy` keeps every melee-DPS field. -/
theorem hitFirstEnemy_melee (pr : Rect) (dmg : ℤ) (l : List V1.Enemy)
    (h : V1.MeleeOK l) : V1.MeleeOK (V1.hitFirstEnemy pr dmg l).1 := by
  induction l with
  | nil => exact h
  | cons e es ih =>
    have he : 0 ≤ e.melee_dps := h e (List.mem_cons_self e es)
    have hes : V1.MeleeOK es := fun x hx => h x (List.mem_cons_of_mem e hx)
    rw [V1.hitFirstEnemy]
    split_ifs
    · intro x hx
      rcases List.mem_cons.mp hx with hx | hx
      · subst hx
        exact he
      · exact hes x hx
    · intro x hx
      rcases List.mem_cons.mp hx with hx | hx
      · subst hx
        exact he
      · exact ih hes x hx

/-- One player-projectile step keeps the melee invariant. -/
theorem projHitStep_melee (proj : Projectile) (es : List V1.Enemy) (s : V1.P1)
    (h : V1.MeleeOK es) : V1.MeleeOK (V1.projHitStep proj es s).2.1 := by
  rw [V1.projHitStep]
  by_cases ha : proj.alive = true
  · simp only [ha, if_true]
    have hm := hitFirstEnemy_melee (V1.Projectile.rect proj) proj.damage es h
    rcases hr : V1.hitFirstEnemy (V1.Projectile.rect proj) proj.damage es with ⟨es', oe⟩
    rw [hr] at hm
    cases oe <;> simp only [hr] <;> try dsimp only
    · exact hm
    · split_ifs <;> exact hm
  · simp only [ha, if_false]
    exact h

/-- The whole player-projectile pass keeps the melee invariant. -/
theorem phase1_melee (ps : List Projectile) (es : List V1.Enemy) (s : V1.P1)
    (h : V1.MeleeOK es) : V1.MeleeOK (V1.phase1 ps es s).2.1 := by
  induction ps generalizing es s with
  | nil => exact h
  | cons p ps ih =>
    rw [V1.phase1]
    dsimp only
    exact ih _ _ (projHitStep_melee p es s h)

/-- One enemy-projectile step: player health stays in `[0, max]`, castle
health never increases, damage is preserved. -/
theorem enemyProjStep_spec (prect crect : Rect) (p : Projectile) (hp : ℤ) (c : ℚ)
    (hd : 0 ≤ p.damage) (h0 : 0 ≤ hp) (h1 : hp ≤ V1.PLAYER_MAX_HP) :
    0 ≤ (V1.enemyProjStep prect crect p hp c).2.1
    ∧ (V1.enemyProjStep prect crect p hp c).2.1 ≤ V1.PLAYER_MAX_HP
    ∧ (V1.enemyProjStep prect crect p hp c).2.2 ≤ c
    ∧ (V1.enemyProjStep prect crect p hp c).1.damage = p.damage := by
  have hdq : (0 : ℚ) ≤ (p.damage : ℚ) := Int.cast_nonneg.mpr hd
  rw [V1.enemyProjStep]
  try dsimp only
  split_ifs with ha hpl hl hca
  · refine ⟨?_, ?_, ?_, rfl⟩
    · show (0 : ℤ) ≤ V1.PLAYER_MAX_HP
      norm_num [V1.PLAYER_MAX_HP]
    · show V1.PLAYER_MAX_HP ≤ V1.PLAYER_MAX_HP
      exact le_refl _
    · show c - 60 ≤ c
      linarith
  · refine ⟨?_, ?_, ?_, rfl⟩
    · show (0 : ℤ) ≤ hp - p.damage
      omega
    · show hp - p.damage ≤ V1.PLAYER_MAX_HP
      simp only [V1.PLAYER_MAX_HP] at h1 ⊢
      omega
    · show c ≤ c
      exact le_refl c
  · refine ⟨h0, h1, ?_, rfl⟩
    show c - (p.damage : ℚ) * (1/2) ≤ c
    have hh : 0 ≤ (p.damage : ℚ) * (1/2) := mul_nonneg hdq (by norm_num)
    linarith
  · exact ⟨h0, h1, le_refl _, rfl⟩
  · exact ⟨h0, h1, le_refl _, rfl⟩

/-- The enemy-projectile pass: player health stays in `[0, max]`, castle
health never increases, all damage fields survive. -/
theorem phase2_spec (prect crect : Rect) (l : List Projectile) (hp : ℤ) (c : ℚ)
    (hl : V1.ProjDmgOK l) (h0 : 0 ≤ hp) (h1 : hp ≤ V1.PLAYER_MAX_HP) :
    0 ≤ (V1.phase2 prect crect l hp c).2.1
    ∧ (V1.phase2 prect crect l hp c).2.1 ≤ V1.PLAYER_MAX_HP
    ∧ (V1.phase2 prect crect l hp c).2.2 ≤ c
    ∧ V1.ProjDmgOK (V1.phase2 prect crect l hp c).1 := by
  induction l generalizing hp c with
  | nil =>
    refine ⟨h0, h1, le_refl _, ?_⟩
    intro x hx
    exact absurd hx (List.not_mem_nil x)
  | cons p ps ih =>
    have hdp : 0 ≤ p.damage := hl p (List.mem_cons_self p ps)
    have hps : V1.ProjDmgOK ps := fun x hx => hl x (List.mem_cons_of_mem p hx)
    obtain ⟨hs0, hs1, hs2, hs3⟩ := enemyProjStep_spec prect crect p hp c hdp h0 h1
    obtain ⟨ih0, ih1, ih2, ih3⟩ := ih ((V1.enemyProjStep prect crect p hp c).2.1)
      ((V1.enemyProjStep prect crect p hp c).2.2) hps hs0 hs1
    rw [V1.phase2]
    dsimp only
    refine ⟨ih0, ih1, le_trans ih2 hs2, ?_⟩
    intro x hx
    rcases List.mem_cons.mp hx with hx | hx
    · subst hx
      rw [hs3]
      exact hdp
    · exact ih3 x hx

/-- One power-up pickup keeps player health and stamina in bounds. -/
theorem powerupStep_spec (pu : V1.PowerUp) (pl : V1.Player) (score : ℤ)
    (h0 : 0 ≤ pl.hp) (h1 : pl.hp ≤ V1.PLAYER_MAX_HP)
    (h2 : 0 ≤ pl.stamina) (h3 : pl.stamina ≤ V1.PLAYER_STAMINA_MAX) :
    0 ≤ (V1.powerupStep pu pl score).2.1.hp
    ∧ (V1.powerupStep pu pl score).2.1.hp ≤ V1.PLAYER_MAX_HP
    ∧ 0 ≤ (V1.powerupStep pu pl score).2.1.stamina
    ∧ (V1.powerupStep pu pl score).2.1.stamina ≤ V1.PLAYER_STAMINA_MAX := by
  rw [V1.powerupStep]
  split_ifs with hc
  · cases hk : pu.kind <;> dsimp only
    · refine ⟨le_min (by norm_num [V1.PLAYER_MAX_HP]) (by omega), min_le_left _ _, h2, h3⟩
    · refine ⟨h0, h1, le_min (by norm_num [V1.PLAYER_STAMINA_MAX]) (by linarith),
        min_le_left _ _⟩
    · exact ⟨h0, h1, h2, h3⟩
  · exact ⟨h0, h1, h2, h3⟩

/-- The pickup pass keeps player health and stamina in bounds. -/
theorem phase3_spec (pus : List V1.PowerUp) (pl : V1.Player) (score : ℤ)
    (h0 : 0 ≤ pl.hp) (h1 : pl.hp ≤ V1.PLAYER_MAX_HP)
    (h2 : 0 ≤ pl.stamina) (h3 : pl.stamina ≤ V1.PLAYER_STAMINA_MAX) :
    0 ≤ (V1.phase3 pus pl score).2.1.hp
    ∧ (V1.phase3 pus pl score).2.1.hp ≤ V1.PLAYER_MAX_HP
    ∧ 0 ≤ (V1.phase3 pus pl score).2.1.stamina
    ∧ (V1.phase3 pus pl score).2.1.stamina ≤ V1.PLAYER_STAMINA_MAX := by
  induction pus generalizing pl score with
  | nil => exact ⟨h0, h1, h2, h3⟩
  | cons pu pus ih =>
    obtain ⟨hs0, hs1, hs2, hs3⟩ := powerupStep_spec pu pl score h0 h1 h2 h3
    rw [V1.phase3]
    dsimp only
    exact ih _ _ hs0 hs1 hs2 hs3

/-- `handle_collisions` preserves the bounds invariant. -/
theorem handle_collisions_inv (g : V1.Game) (h : V1.Inv g) :
    V1.Inv (V1.Game.handle_collisions g) := by
  obtain ⟨h1, h2, h3, h4, h5, h6, h7⟩ := h
  obtain ⟨p0, p1, p2, p3⟩ := phase2_spec (V1.Player.rect g.player) g.castle_rect
    g.enemy_projectiles g.player.hp g.castle_hp h6 h1 h2
  have hpl3 := phase3_spec
    (V1.phase1 g.projectiles g.enemies ⟨g.score, g.kills_this_wave, g.powerups, g.rng⟩).2.2.powerups
    { g.player with
        hp := (V1.phase2 (V1.Player.rect g.player) g.castle_rect g.enemy_projectiles
          g.player.hp g.castle_hp).2.1 }
    (V1.phase1 g.projectiles g.enemies ⟨g.score, g.kills_this_wave, g.powerups, g.rng⟩).2.2.score
    p0 p1 h3 h4
  refine ⟨hpl3.1, hpl3.2.1, hpl3.2.2.1, hpl3.2.2.2, le_trans p2 h5, p3, ?_⟩
  exact phase1_melee g.projectiles g.enemies _ h7

/-- `cleanup` preserves the bounds invariant. -/
theorem cleanup_inv (g : V1.Game) (h : V1.Inv g) : V1.Inv (V1.Game.cleanup g) := by
  obtain ⟨h1, h2, h3, h4, h5, h6, h7⟩ := h
  exact ⟨h1, h2, h3, h4, h5, projDmgOK_filter _ _ h6, meleeOK_filter _ _ h7⟩

/-- `advance_wave_if_ready` preserves the bounds invariant. -/
theorem advance_inv (g : V1.Game) (h : V1.Inv g) :
    V1.Inv (V1.Game.advance_wave_if_ready g) := by
  obtain ⟨h1, h2, h3, h4, h5, h6, h7⟩ := h
  rw [V1.Game.advance_wave_if_ready]
  split_ifs
  · exact ⟨h1, h2, h3, h4, min_le_left _ _, h6, h7⟩
  · exact ⟨h1, h2, h3, h4, h5, h6, h7⟩

/-- `try_spawn_enemies` preserves the bounds invariant. -/
theorem try_spawn_inv (g : V1.Game) (dt : ℚ) (h : V1.Inv g) :
    V1.Inv (V1.Game.try_spawn_enemies g dt) := by
  obtain ⟨hf1, hf2, hf3, hf4, hf5⟩ := try_spawn_fields g dt
  obtain ⟨h1, h2, h3, h4, h5, h6, h7⟩ := h
  refine ⟨?_, ?_, ?_, ?_, ?_, ?_, try_spawn_meleeOK g dt h7⟩
  · rw [hf1]; exact h1
  · rw [hf1]; exact h2
  · rw [hf1]; exact h3
  · rw [hf1]; exact h4
  · rw [hf2]; exact h5
  · rw [hf3]; exact h6

/-- The actor stage preserves the bounds invariant. -/
theorem stepActors_inv (sq : ℚ → ℚ) (dt : ℚ) (keys : Keys) (mouse : ℚ × ℚ)
    (g : V1.Game) (h : V1.Inv g) : V1.Inv (V1.Game.stepActors sq dt keys mouse g) := by
  obtain ⟨h1, h2, h3, h4, h5, h6, h7⟩ := h
  obtain ⟨hp, hs0, hs1⟩ := player_update_spec sq g.player dt keys mouse
  refine ⟨?_, ?_, hs0, hs1, h5, h6, h7⟩
  · show 0 ≤ (V1.Player.update sq g.player dt keys mouse).hp
    rw [hp]; exact h1
  · show (V1.Player.update sq g.player dt keys mouse).hp ≤ V1.PLAYER_MAX_HP
    rw [hp]; exact h2

/-- Projectile integration preserves the bounds invariant. -/
theorem integrate_inv (dt : ℚ) (g : V1.Game) (h : V1.Inv g) :
    V1.Inv (V1.Game.integrateProjectiles dt g) := by
  obtain ⟨h1, h2, h3, h4, h5, h6, h7⟩ := h
  exact ⟨h1, h2, h3, h4, h5, projDmgOK_map _ _ h6, h7⟩

/-- The enemy stage preserves the bounds invariant when `dt ≥ 0`. -/
theorem enemiesUpdate_inv (sq : ℚ → ℚ) (dt : ℚ) (g : V1.Game) (hdt : 0 ≤ dt)
    (h : V1.Inv g) : V1.Inv (V1.Game.enemiesUpdate sq dt g) := by
  obtain ⟨h1, h2, h3, h4, h5, h6, h7⟩ := h
  obtain ⟨e1, e2, e3⟩ := enemiesPhase_spec sq dt g.castle_rect g.player.x g.enemies h7
  refine ⟨h1, h2, h3, h4, ?_, projDmgOK_append _ _ h6 e2, e1⟩
  show (if (V1.enemiesPhase sq dt g.castle_rect g.player.x g.enemies).2.2 > 0 then
          g.castle_hp - (V1.enemiesPhase sq dt g.castle_rect g.player.x g.enemies).2.2 * dt
        else g.castle_hp) ≤ V1.CASTLE_HP_MAX
  split_ifs with hdps
  · have hnn : 0 ≤ (V1.enemiesPhase sq dt g.castle_rect g.player.x g.enemies).2.2 * dt :=
      mul_nonneg e3 hdt
    linarith
  · exact h5

/-- The power-up stage preserves the bounds invariant. -/
theorem powerupsUpdate_inv (dt : ℚ) (g : V1.Game) (h : V1.Inv g) :
    V1.Inv (V1.Game.powerupsUpdate dt g) := h

/-- The loss check preserves the bounds invariant. -/
theorem loseCheck_inv (g : V1.Game) (h : V1.Inv g) : V1.Inv (V1.Game.loseCheck g) := by
  rw [V1.Game.loseCheck]
  split_ifs
  · exact h
  · exact h

/-! ## C3: per-tick bounds -/

/-- C3 (corrected claim): for every tick with `dt ≥ 0` from a state inside
bounds, the post-tick state satisfies `0 ≤ player.hp ≤ maxHealth`,
`0 ≤ stamina ≤ staminaMax` and `castle_hp ≤ castleMax` — but only the
castle **upper** bound: castle health is never floored at 0 and goes
negative in the tick that ends the run. -/
theorem claim_C3_amended (sq : ℚ → ℚ) (g : V1.Game) (dt : ℚ) (keys : Keys)
    (mouse : ℚ × ℚ) (hdt : 0 ≤ dt) (h : V1.Inv g) :
    V1.Inv (V1.Game.update sq g dt keys mouse) := by
  rw [V1.Game.update]
  split_ifs with hs
  · exact loseCheck_inv _ (advance_inv _ (cleanup_inv _ (handle_collisions_inv _
      (powerupsUpdate_inv dt _ (enemiesUpdate_inv sq dt _ hdt (integrate_inv dt _
        (try_spawn_inv _ dt (stepActors_inv sq dt keys mouse g h))))))))
  · exact h

/-- Witness for C3 at `dt = 1/60` from a concrete in-bounds state. -/
theorem claim_C3_witness :
    (0 : ℚ) ≤ 1/60 ∧ V1.Inv V1.gC3W
    ∧ V1.Inv (V1.Game.update idSq V1.gC3W (1/60) noKeys (0, 0)) :=
  ⟨by decide, by decide,
   claim_C3_amended idSq V1.gC3W (1/60) noKeys (0, 0) (by decide) (by decide)⟩

/-- C3 counterexample: a state satisfying all the claimed bounds (castle at
5) whose tick drives castle health **below 0** (a damage-16 arrow hits the
castle for 8), refuting the claimed `0 ≤ castle.health` conjunct. -/
theorem claim_C3_counterexample :
    (0 ≤ V1.gC3.player.hp ∧ V1.gC3.player.hp ≤ V1.PLAYER_MAX_HP
      ∧ 0 ≤ V1.gC3.player.stamina ∧ V1.gC3.player.stamina ≤ V1.PLAYER_STAMINA_MAX
      ∧ 0 ≤ V1.gC3.castle_hp ∧ V1.gC3.castle_hp ≤ V1.CASTLE_HP_MAX)
    ∧ (V1.Game.update idSq V1.gC3 0 noKeys (0, 0)).castle_hp = -3
    ∧ (V1.Game.update idSq V1.gC3 0 noKeys (0, 0)).castle_hp < 0 := by
  refine ⟨by decide, ?_, ?_⟩ <;> decide

/-! ## C4: single-hit collision policy -/

/-- `maybe_drop_powerup` never changes the score. -/
theorem maybe_drop_score (x y : ℚ) (s : V1.P1) :
    (V1.maybe_drop_powerup x y s).score = s.score := by
  rw [V1.maybe_drop_powerup]
  split_ifs <;> rfl

/-- `maybe_drop_powerup` never changes the kill counter. -/
theorem maybe_drop_kills (x y : ℚ) (s : V1.P1) :
    (V1.maybe_drop_powerup x y s).kills = s.kills := by
  rw [V1.maybe_drop_powerup]
  split_ifs <;> rfl

/-- `hitFirstEnemy` damages exactly the first enemy (in list order) whose
rectangle overlaps the projectile rectangle, leaving every other entry
unchanged, and reports it. -/
theorem hitFirstEnemy_spec (pr : Rect) (dmg : ℤ) (l : List V1.Enemy) (i : ℕ)
    (hi : i < l.length)
    (hhit : pr.collides (V1.Enemy.rect (l.get ⟨i, hi⟩)) = true)
    (hfirst : ∀ j (hj : j < i),
      pr.collides (V1.Enemy.rect (l.get ⟨j, hj.trans hi⟩)) = false) :
    V1.hitFirstEnemy pr dmg l =
      (l.set i { l.get ⟨i, hi⟩ with hp := (l.get ⟨i, hi⟩).hp - dmg },
       some { l.get ⟨i, hi⟩ with hp := (l.get ⟨i, hi⟩).hp - dmg }) := by
  induction l generalizing i with
  | nil => exact absurd hi (Nat.not_lt_zero i)
  | cons e es ih =>
    cases i with
    | zero =>
      have hhit0 : pr.collides (V1.Enemy.rect e) = true := hhit
      rw [V1.hitFirstEnemy, if_pos hhit0]
      rfl
    | succ n =>
      have h0 : pr.collides (V1.Enemy.rect e) = false := hfirst 0 (Nat.succ_pos n)
      have hrec := ih n (Nat.lt_of_succ_lt_succ hi) hhit
        (fun j hj => hfirst (j + 1) (Nat.succ_lt_succ hj))
      rw [V1.hitFirstEnemy, if_neg (by simp [h0]), hrec]
      rfl

/-- C4: a live player projectile damages at most one enemy per tick — the
first in iteration (spawn) order whose rectangle overlaps it; the hit
decreases that enemy's health by the projectile's damage, deactivates the
projectile and awards the flat hit score (plus the kill bonus and the kill
count when lethal); every other enemy, in particular every later one, is
left untouched. -/
theorem claim_C4 (proj : Projectile) (enemies : List V1.Enemy) (s : V1.P1) (i : ℕ)
    (halive : proj.alive = true)
    (hi : i < enemies.length)
    (hhit : (V1.Projectile.rect proj).collides
      (V1.Enemy.rect (enemies.get ⟨i, hi⟩)) = true)
    (hfirst : ∀ j (hj : j < i),
      (V1.Projectile.rect proj).collides
        (V1.Enemy.rect (enemies.get ⟨j, hj.trans hi⟩)) = false) :
    (V1.projHitStep proj enemies s).1 = { proj with alive := false }
    ∧ (V1.projHitStep proj enemies s).2.1 =
        enemies.set i
          { enemies.get ⟨i, hi⟩ with hp := (enemies.get ⟨i, hi⟩).hp - proj.damage }
    ∧ (V1.projHitStep proj enemies s).2.2.score =
        s.score + 5 + (if (enemies.get ⟨i, hi⟩).hp - proj.damage ≤ 0 then
                         20 + (if (enemies.get ⟨i, hi⟩).is_brute then 10 else 0) else 0)
    ∧ (V1.projHitStep proj enemies s).2.2.kills =
        s.kills + (if (enemies.get ⟨i, hi⟩).hp - proj.damage ≤ 0 then 1 else 0) := by
  rw [V1.projHitStep,
      hitFirstEnemy_spec (V1.Projectile.rect proj) proj.damage enemies i hi hhit hfirst]
  simp only [halive, if_true]
  dsimp only
  by_cases hk : (enemies.get ⟨i, hi⟩).hp - proj.damage ≤ 0
  · by_cases hb : (enemies.get ⟨i, hi⟩).is_brute = true
    · simp only [hk, hb, if_true, maybe_drop_score, maybe_drop_kills]
      exact ⟨trivial, trivial, by ring, by first | rfl | ring⟩
    · simp only [hk, if_true, hb, if_false, Bool.not_eq_true, maybe_drop_score,
        maybe_drop_kills]
      exact ⟨trivial, trivial, by ring, by first | rfl | ring⟩
  · simp only [hk, if_false]
    exact ⟨trivial, trivial, by ring, by first | rfl | ring⟩

/-- Witness for C4: the arrow overlaps the second enemy only; the first is
skipped, the second is damaged, the rest of the state follows the policy. -/
theorem claim_C4_witness :
    (V1.Projectile.rect pC4).collides (V1.Enemy.rect eHit) = true
    ∧ (V1.projHitStep pC4 [eFar, eHit] sP1).1 = { pC4 with alive := false }
    ∧ (V1.projHitStep pC4 [eFar, eHit] sP1).2.1 =
        List.set [eFar, eHit] 1 { eHit with hp := eHit.hp - pC4.damage } := by
  have h := claim_C4 pC4 [eFar, eHit] sP1 1 (by decide)
    (Nat.succ_lt_succ (Nat.zero_lt_succ 0))
    (by decide)
    (fun j hj => by
      have hj0 : j = 0 := by omega
      subst hj0
      show (V1.Projectile.rect pC4).collides
        (V1.Enemy.rect (([eFar, eHit] : List V1.Enemy).get ⟨0, Nat.zero_lt_succ 1⟩)) = false
      decide)
  exact ⟨by decide, h.1, h.2.1⟩

/-! ## C5: enemy-projectile target priority -/

/-- C5: a live enemy projectile is tested against the player's inset
hurtbox first; only when that test fails is the (slightly inflated) castle
region tested, and a castle hit removes exactly half the projectile's
damage from castle health and deactivates the projectile; when the player
is hit the castle half-damage is never applied as well (both copies). -/
theorem claim_C5 (prect crect : Rect) (p : Projectile) (hp : ℤ) (c : ℚ)
    (halive : p.alive = true) :
    ((V1.Projectile.rect p).collides (prect.inflate (-6) (-10)) = true →
      V1.enemyProjStep prect crect p hp c =
        ({ p with alive := false },
         if hp - p.damage ≤ 0 then V1.PLAYER_MAX_HP else hp - p.damage,
         if hp - p.damage ≤ 0 then c - 60 else c))
    ∧ ((V1.Projectile.rect p).collides (prect.inflate (-6) (-10)) = false →
       (V1.Projectile.rect p).collides (crect.inflate 8 8) = true →
      V1.enemyProjStep prect crect p hp c =
        ({ p with alive := false }, hp, c - (p.damage : ℚ) * (1/2)))
    ∧ ((V1.Projectile.rect p).collides (prect.inflate (-6) (-10)) = false →
       (V1.Projectile.rect p).collides (crect.inflate 8 8) = false →
      V1.enemyProjStep prect crect p hp c = (p, hp, c))
    ∧ ((V1.Projectile.rect p).collides (prect.inflate (-6) (-12)) = true →
      V5.enemyProjStep prect crect p hp c =
        ({ p with alive := false },
         if hp - p.damage ≤ 0 then V5.PLAYER_MAX_HP else hp - p.damage,
         if hp - p.damage ≤ 0 then c - 50 else c))
    ∧ ((V1.Projectile.rect p).collides (prect.inflate (-6) (-12)) = false →
       (V1.Projectile.rect p).collides (crect.inflate 8 8) = true →
      V5.enemyProjStep prect crect p hp c =
        ({ p with alive := false }, hp, c - (p.damage : ℚ) * (1/2)))
    ∧ ((V1.Projectile.rect p).collides (prect.inflate (-6) (-12)) = false →
       (V1.Projectile.rect p).collides (crect.inflate 8 8) = false →
      V5.enemyProjStep prect crect p hp c = (p, hp, c)) := by
  refine ⟨?_, ?_, ?_, ?_, ?_, ?_⟩
  · intro hpl
    rw [V1.enemyProjStep]
    simp only [halive, if_true, hpl]
    split <;> rfl
  · intro hpl hca
    rw [V1.enemyProjStep]
    simp [halive, hpl, hca]
  · intro hpl hca
    rw [V1.enemyProjStep]
    simp [halive, hpl, hca]
  · intro hpl
    rw [V5.enemyProjStep]
    simp only [halive, if_true, hpl]
    split <;> rfl
  · intro hpl hca
    rw [V5.enemyProjStep]
    simp [halive, hpl, hca]
  · intro hpl hca
    rw [V5.enemyProjStep]
    simp [halive, hpl, hca]

/-- Witness for C5: a projectile overlapping both the player's inset
hurtbox and the inflated castle region still damages only the player. -/
theorem claim_C5_witness :
    (V1.Projectile.rect pC5).collides (prC5.inflate (-6) (-10)) = true
    ∧ V1.enemyProjStep prC5 crC5 pC5 100 600 =
        ({ pC5 with alive := false },
         if 100 - pC5.damage ≤ 0 then V1.PLAYER_MAX_HP else 100 - pC5.damage,
         if 100 - pC5.damage ≤ 0 then 600 - 60 else 600) :=
  ⟨by decide, (claim_C5 prC5 crC5 pC5 100 600 (by decide)).1 (by decide)⟩

/-! ## C1: respawn tax -/

/-- C1 (corrected claim): a lethal player hit fully heals the player to the
maximum and subtracts exactly the respawn-tax constant (60 in the first
copy, 50 in the later copy) from castle health, with no clamp at a 0
floor. -/
theorem claim_C1_amended (prect crect : Rect) (p : Projectile) (hp : ℤ) (c : ℚ)
    (halive : p.alive = true)
    (hcol1 : (V1.Projectile.rect p).collides (prect.inflate (-6) (-10)) = true)
    (hcol5 : (V1.Projectile.rect p).collides (prect.inflate (-6) (-12)) = true)
    (hlethal : hp - p.damage ≤ 0) :
    V1.enemyProjStep prect crect p hp c = ({ p with alive := false }, V1.PLAYER_MAX_HP, c - 60)
    ∧ V5.enemyProjStep prect crect p hp c =
        ({ p with alive := false }, V5.PLAYER_MAX_HP, c - 50) := by
  constructor
  · rw [V1.enemyProjStep]
    simp [halive, hcol1, hlethal]
  · rw [V5.enemyProjStep]
    simp [halive, hcol5, hlethal]

/-- Witness for C1: a damage-16 arrow hitting a 10-health player at castle
health 30 heals the player to 100 and leaves the castle at `30 - 60`. -/
theorem claim_C1_witness :
    (10 : ℤ) - pC5.damage ≤ 0
    ∧ V1.enemyProjStep prC5 crC5 pC5 10 30 =
        ({ pC5 with alive := false }, V1.PLAYER_MAX_HP, 30 - 60) :=
  ⟨by decide,
   (claim_C1_amended prC5 crC5 pC5 10 30 (by decide) (by decide) (by decide) (by decide)).1⟩

/-- C1 counterexample: from a reachable-shaped state (castle 30, player
health 10, a live damage-16 enemy arrow on the player's inset hurtbox) the
tick heals the player but leaves castle health at `-30` — not clamped at a
0 floor — and the run ends in that same tick. -/
theorem claim_C1_counterexample :
    V1.gC1.castle_hp = 30 ∧ V1.gC1.player.hp = 10 ∧ V1.gC1.state = GState.playing
    ∧ (V1.Game.update idSq V1.gC1 0 noKeys (0, 0)).player.hp = 100
    ∧ (V1.Game.update idSq V1.gC1 0 noKeys (0, 0)).castle_hp = -30
    ∧ (V1.Game.update idSq V1.gC1 0 noKeys (0, 0)).castle_hp < 0
    ∧ (V1.Game.update idSq V1.gC1 0 noKeys (0, 0)).state = GState.game_over := by
  refine ⟨rfl, rfl, rfl, ?_, ?_, ?_, ?_⟩ <;> decide

/-! ## C2: wave advance -/

/-- C2 (corrected claim): the wave advances exactly when the kill counter
has **reached or passed** `wave × killsPerWave` (the guard is `>=`, and the
counter can overshoot when several kills land in one tick); advancing
resets the counter to 0, multiplies the stored spawn rate by the
deceleration factor — strictly decreasing it whenever it is positive, and
never increasing the `max(floor, rate)` effective interval — and heals the
castle by the fixed bonus capped at the castle maximum (both copies). -/
theorem claim_C2_amended (g : V1.Game) (s : V5.WaveState) :
    ((V1.Game.advance_wave_if_ready g).wave = g.wave + 1
      ↔ g.wave * V1.WAVE_KILL_TARGET_STEP ≤ g.kills_this_wave)
    ∧ (g.wave * V1.WAVE_KILL_TARGET_STEP ≤ g.kills_this_wave →
        (V1.Game.advance_wave_if_ready g).kills_this_wave = 0
        ∧ (V1.Game.advance_wave_if_ready g).spawn_rate = g.spawn_rate * V1.WAVE_ACCELERATION
        ∧ (V1.Game.advance_wave_if_ready g).castle_hp = min V1.CASTLE_HP_MAX (g.castle_hp + 60)
        ∧ (0 < g.spawn_rate → (V1.Game.advance_wave_if_ready g).spawn_rate < g.spawn_rate)
        ∧ max (1/4) (V1.Game.advance_wave_if_ready g).spawn_rate ≤ max (1/4) g.spawn_rate)
    ∧ (¬ g.wave * V1.WAVE_KILL_TARGET_STEP ≤ g.kills_this_wave →
        V1.Game.advance_wave_if_ready g = g)
    ∧ ((V5.maybe_advance_wave s).wave = s.wave + 1
        ↔ s.wave * V5.WAVE_KILL_TARGET_STEP ≤ s.kills_this_wave)
    ∧ (s.wave * V5.WAVE_KILL_TARGET_STEP ≤ s.kills_this_wave →
        (V5.maybe_advance_wave s).kills_this_wave = 0
        ∧ (V5.maybe_advance_wave s).spawn_rate = s.spawn_rate * V5.WAVE_ACCELERATION
        ∧ (V5.maybe_advance_wave s).castle_hp = min V5.CASTLE_HP_MAX (s.castle_hp + 40))
    ∧ (¬ s.wave * V5.WAVE_KILL_TARGET_STEP ≤ s.kills_this_wave →
        V5.maybe_advance_wave s = s) := by
  have hrate : ∀ r : ℚ, r * (92/100) ≤ max (1/4) r := by
    intro r
    rcases le_or_lt 0 r with h0 | h0
    · exact le_trans (mul_le_of_le_one_right h0 (by norm_num)) (le_max_right _ _)
    · exact le_trans (le_of_lt (mul_neg_of_neg_of_pos h0 (by norm_num)))
        (le_trans (by norm_num) (le_max_left (1/4) r))
  refine ⟨?_, ?_, ?_, ?_, ?_, ?_⟩
  · by_cases h : g.wave * V1.WAVE_KILL_TARGET_STEP ≤ g.kills_this_wave
    · rw [V1.Game.advance_wave_if_ready, if_pos h]
      simpa using h
    · rw [V1.Game.advance_wave_if_ready, if_neg h]
      simp [h]
  · intro h
    rw [V1.Game.advance_wave_if_ready, if_pos h]
    refine ⟨rfl, rfl, rfl, ?_, ?_⟩
    · intro hr
      simpa [V1.WAVE_ACCELERATION] using mul_lt_of_lt_one_right hr (by norm_num : (92:ℚ)/100 < 1)
    · simpa [V1.WAVE_ACCELERATION] using max_le (le_max_left (1/4) g.spawn_rate) (hrate g.spawn_rate)
  · intro h
    rw [V1.Game.advance_wave_if_ready, if_neg h]
  · by_cases h : s.wave * V5.WAVE_KILL_TARGET_STEP ≤ s.kills_this_wave
    · rw [V5.maybe_advance_wave, if_pos h]
      simpa using h
    · rw [V5.maybe_advance_wave, if_neg h]
      simp [h]
  · intro h
    rw [V5.maybe_advance_wave, if_pos h]
    exact ⟨rfl, rfl, rfl⟩
  · intro h
    rw [V5.maybe_advance_wave, if_neg h]

/-- Witness for C2 at a concrete state past the threshold. -/
theorem claim_C2_witness :
    V1.gC2W.wave * V1.WAVE_KILL_TARGET_STEP ≤ V1.gC2W.kills_this_wave
    ∧ (V1.Game.advance_wave_if_ready V1.gC2W).kills_this_wave = 0
    ∧ (V1.Game.advance_wave_if_ready V1.gC2W).spawn_rate
        = V1.gC2W.spawn_rate * V1.WAVE_ACCELERATION :=
  ⟨by decide,
   ((claim_C2_amended V1.gC2W sC2W5).2.1 (by decide)).1,
   ((claim_C2_amended V1.gC2W sC2W5).2.1 (by decide)).2.1⟩

/-- C2 counterexample: from kill counter 11 (wave-1 target 12), one tick
with two simultaneous lethal hits drives the counter to 13 — so the wave
advances at a count that never equalled `wave × killsPerWave`, refuting the
"no fewer, no more" reading. -/
theorem claim_C2_counterexample :
    V1.gC2.wave = 1 ∧ V1.gC2.kills_this_wave = 11
    ∧ (V1.Game.handle_collisions V1.gC2).kills_this_wave = 13
    ∧ (V1.Game.handle_collisions V1.gC2).wave = 1
    ∧ (13 : ℕ) ≠ 1 * V1.WAVE_KILL_TARGET_STEP
    ∧ (V1.Game.advance_wave_if_ready (V1.Game.handle_collisions V1.gC2)).wave = 2
    ∧ (V1.Game.update idSq V1.gC2 0 noKeys (0, 0)).wave = 2 := by
  refine ⟨rfl, rfl, ?_, ?_, ?_, ?_, ?_⟩ <;> decide

/-! ## C6: spawn-round composition -/

/-- C6 (corrected claim): while the decremented spawn timer stays positive
no enemy spawns; on expiry the timer resets to `max(floor, spawn_rate)` and
one round runs.  In the first copy the round always spawns exactly one
swordsman and rolls an archer and a brute independently, each with a
wave-scaled probability clamped to its fixed band; in the later copy the
swordsman itself spawns only with fixed probability `0.55`, the archer
probability is clamped to `[0.35, 0.85]`, and there is no brute roll. -/
theorem claim_C6_amended (g : V1.Game) (dt : ℚ) (s : V5.SpawnState) (dt5 : ℚ) :
    (0 < g.spawn_timer - dt →
      V1.Game.try_spawn_enemies g dt = { g with spawn_timer := g.spawn_timer - dt })
    ∧ (g.spawn_timer - dt ≤ 0 →
        (V1.Game.try_spawn_enemies g dt).spawn_timer = max (1/4) g.spawn_rate
        ∧ (V1.Game.try_spawn_enemies g dt).enemies =
            g.enemies ++ [V1.mkSwordsman (g.rng.vals g.rng.idx)]
              ++ (if g.rng.vals (g.rng.idx + 1) < V1.archer_p g.wave then
                    [V1.mkArcher (g.rng.vals (g.rng.idx + 2))]
                      ++ (if g.rng.vals (g.rng.idx + 3) < V1.brute_p g.wave then
                            [V1.mkBrute (g.rng.vals (g.rng.idx + 4))] else [])
                  else
                    (if g.rng.vals (g.rng.idx + 2) < V1.brute_p g.wave then
                       [V1.mkBrute (g.rng.vals (g.rng.idx + 3))] else []))
        ∧ 3/10 ≤ V1.archer_p g.wave ∧ V1.archer_p g.wave ≤ 85/100
        ∧ 1/10 ≤ V1.brute_p g.wave ∧ V1.brute_p g.wave ≤ 4/10)
    ∧ (0 < s.spawn_timer - dt5 →
        V5.try_spawn_enemies s dt5 = { s with spawn_timer := s.spawn_timer - dt5 })
    ∧ (s.spawn_timer - dt5 ≤ 0 →
        (V5.try_spawn_enemies s dt5).spawn_timer = max (2/10) s.spawn_rate
        ∧ (V5.try_spawn_enemies s dt5).enemies =
            s.enemies ++ (if s.rng.vals s.rng.idx < 55/100 then
                            [V5.mkSwordsman (s.rng.vals (s.rng.idx + 1))]
                              ++ (if s.rng.vals (s.rng.idx + 2) < V5.archer_p s.wave then
                                    [V5.mkArcher (s.rng.vals (s.rng.idx + 3))] else [])
                          else
                            (if s.rng.vals (s.rng.idx + 1) < V5.archer_p s.wave then
                               [V5.mkArcher (s.rng.vals (s.rng.idx + 2))] else []))
        ∧ 35/100 ≤ V5.archer_p s.wave ∧ V5.archer_p s.wave ≤ 85/100) := by
  refine ⟨?_, ?_, ?_, ?_⟩
  · intro h
    rw [V1.Game.try_spawn_enemies]
    simp only []
    rw [if_neg (not_le.mpr h)]
  · intro h
    refine ⟨?_, ?_, clamp_lower _ _ _, clamp_upper _ _ _ (by norm_num),
            clamp_lower _ _ _, clamp_upper _ _ _ (by norm_num)⟩
    · rw [V1.Game.try_spawn_enemies]
      simp only [if_pos h, V1.Game.spawn_swordsman, V1.Game.spawn_archer,
        V1.Game.spawn_brute, Rng.next]
      split_ifs <;> rfl
    · rw [V1.Game.try_spawn_enemies]
      simp only [if_pos h, V1.Game.spawn_swordsman, V1.Game.spawn_archer,
        V1.Game.spawn_brute, Rng.next]
      split_ifs <;> simp [List.append_assoc]
  · intro h
    rw [V5.try_spawn_enemies]
    simp only []
    rw [if_neg (not_le.mpr h)]
  · intro h
    refine ⟨?_, ?_, clamp_lower _ _ _, clamp_upper _ _ _ (by norm_num)⟩
    · rw [V5.try_spawn_enemies]
      simp only [if_pos h, V5.SpawnState.spawn_swordsman, V5.SpawnState.spawn_archer,
        Rng.next]
      split_ifs <;> rfl
    · rw [V5.try_spawn_enemies]
      simp only [if_pos h, V5.SpawnState.spawn_swordsman, V5.SpawnState.spawn_archer,
        Rng.next]
      split_ifs <;> simp [List.append_assoc]

/-- Witness for C6: a concrete expired timer where the stream answering `1`
spawns the swordsman and neither archer nor brute (first copy), and no
enemy at all in the later copy. -/
theorem claim_C6_witness :
    V1.gC2W.spawn_timer - 1 ≤ 0
    ∧ (V1.Game.try_spawn_enemies V1.gC2W 1).enemies = [V1.mkSwordsman 1] :=
  ⟨by decide, by
    have h := ((claim_C6_amended V1.gC2W 1 V5.sC6 0).2.1 (by decide)).2.1
    simpa using h⟩

/-- C6 counterexample: in the later copy a tick whose spawn timer expires
(and resets to `max(0.2, 1.1)`) can spawn no swordsman at all — the `0.9`
draw fails both the `0.55` swordsman roll and the `0.35` archer roll — so
the round does not always spawn one melee swordsman. -/
theorem claim_C6_counterexample :
    V5.sC6.spawn_timer - 0 ≤ 0
    ∧ (V5.try_spawn_enemies V5.sC6 0).spawn_timer = 11/10
    ∧ (V5.try_spawn_enemies V5.sC6 0).enemies = [] := by
  refine ⟨?_, ?_, ?_⟩ <;> decide

end MA
